import Mathlib

/-!
# OpenSPA XDP gate

A shallow embedding of `internal/xdp/openspa_adk.h` and `internal/xdp/openspa_adk.c`:
the bounds-checked header parsers, the ADK proof validator, the two statistics
maps and the per-packet decision function `xdp_openspa_adk`.

Modelling conventions.

* The packet buffer `[ctx->data, ctx->data_end)` is a list of bytes.  Pointers into
  it are offsets from `data`, so `data` is `0` and `data_end` is `buf.length`.
* The host is little-endian: a multi-byte field is loaded least significant byte
  first and `bpf_htons`, `bpf_ntohs`, `bpf_ntohl` swap bytes.
* C `int` results are `Int`; unsigned values are `Nat`, reduced explicitly where
  the C type truncates (`__u16` port, `__u64` counters).
* The statistics maps are per-CPU array maps: every key below `max_entries` has a
  slot, so a lookup fails exactly for an out-of-range key.  One CPU's copy is
  modelled.
* The configuration map is read through a partial lookup, so that the `NULL`
  branches of `adk_proof_valid` and `openspa_server_port` are reachable.  The
  array map of the program is the case in which keys `0`, `1`, `2` are all present.
* Memory safety of the parsers is stated against a second copy of each parser
  (`parse_iphdr_checked` and so on) in which a read outside the buffer is a fault.
-/

namespace OpenSPA

/-! ## Packet buffer -/

/-- Packet buffer: the bytes between `ctx->data` and `ctx->data_end`. -/
abbrev Packet := List (Fin 256)

/-- The byte at offset `i` of the buffer (`0` outside, which no parser reads
before its bounds check has passed). -/
def byteAt (buf : Packet) (i : Nat) : Nat := (buf.getD i 0).val

/-- Native (little-endian) load of a 16-bit field at offset `off`. -/
def load16 (buf : Packet) (off : Nat) : Nat :=
  byteAt buf off + 256 * byteAt buf (off + 1)

/-- Native (little-endian) load of a 32-bit field at offset `off`. -/
def load32 (buf : Packet) (off : Nat) : Nat :=
  byteAt buf off + 256 * byteAt buf (off + 1) + 65536 * byteAt buf (off + 2)
    + 16777216 * byteAt buf (off + 3)

/-- Byte swap of a 16-bit value (`bpf_htons` on a little-endian host). -/
def bpf_htons (x : Nat) : Nat := (x % 256) * 256 + (x / 256) % 256

/-- Byte swap of a 16-bit value (`bpf_ntohs` on a little-endian host). -/
def bpf_ntohs (x : Nat) : Nat := (x % 256) * 256 + (x / 256) % 256

/-- Byte swap of a 32-bit value (`bpf_ntohl` on a little-endian host). -/
def bpf_ntohl (x : Nat) : Nat :=
  (x % 256) * 16777216 + ((x / 256) % 256) * 65536 + ((x / 65536) % 256) * 256
    + (x / 16777216) % 256

/-! ## Constants -/

def XDP_ABORTED : Nat := 0
def XDP_DROP : Nat := 1
def XDP_PASS : Nat := 2
def XDP_TX : Nat := 3
def XDP_REDIRECT : Nat := 4
def XDP_ACTION_MAX : Nat := XDP_REDIRECT + 1

def ETH_P_IP : Nat := 0x0800
def ETH_P_IPV6 : Nat := 0x86DD
def ETH_P_8021Q : Nat := 0x8100
def ETH_P_8021AD : Nat := 0x88A8
def IPPROTO_UDP : Int := 17

/-- Size of `struct ethhdr`. -/
def SIZEOF_ETHHDR : Nat := 14
/-- Size of `struct vlan_hdr`. -/
def SIZEOF_VLAN_HDR : Nat := 4
/-- Size of `struct iphdr`. -/
def SIZEOF_IPHDR : Nat := 20
/-- Size of `struct ipv6hdr`. -/
def SIZEOF_IPV6HDR : Nat := 40
/-- Size of `struct udphdr`. -/
def SIZEOF_UDPHDR : Nat := 8
/-- Size of `struct ospahdr`. -/
def SIZEOF_OSPAHDR : Nat := 8

def OSPA_CTRL_VERSION : Nat := 2
def OSPA_CTRL_VERSION_MASK : Nat := 0x70
def OSPA_CTRL_VERSION_OFFSET : Nat := 4
def OSPA_BODY_MIN_SIZE : Int := 42

def OSPA_STAT_ID_NOT_OPENSPA_PACKET : Nat := 0
def OSPA_STAT_ID_ADK_PROOF_INVALID : Nat := 1
def OSPA_STAT_ID_ADK_PROOF_VALID : Nat := 2
def OSPA_STAT_ID_MAX : Nat := OSPA_STAT_ID_ADK_PROOF_VALID + 1

def VLAN_MAX_DEPTH : Nat := 2
def VLAN_VID_MASK : Nat := 0x0fff

def CONFIG_MAP_IDX_OPENSPA_SERVER_PORT : Nat := 0
def CONFIG_MAP_IDX_ADK_PROOF_FIRST : Nat := 1
def CONFIG_MAP_IDX_ADK_PROOF_LAST : Nat := 2

/-- Modulus of a `__u64` counter. -/
def U64_MOD : Nat := 18446744073709551616

/-! ## Maps -/

/-- Holds statistics about the XDP action taken (`struct stats_datarec`). -/
structure stats_datarec where
  rx_packets : Nat
  rx_bytes : Nat
deriving DecidableEq, Repr

/-- One scheme-specific event counter (`struct ospa_stat_datarec`). -/
structure ospa_stat_datarec where
  value : Nat
deriving DecidableEq, Repr

/-- The two statistics maps, as seen by one CPU. -/
structure Stats where
  xdp_stats_map : Nat → stats_datarec
  xdp_openspa_stats_map : Nat → ospa_stat_datarec

/-- The configuration map `xdp_config_map`, read through a partial lookup. -/
abbrev Config := Nat → Option Nat

/-- Lookup in an array map with `max_entries` slots: it fails exactly when the
key is out of range. -/
def array_lookup {α : Type} (max_entries : Nat) (m : Nat → α) (key : Nat) : Option α :=
  if key < max_entries then some (m key) else none

/-- The function `xdp_stats_record_action` (`openspa_adk.c:52`): count one packet and its bytes under
`action`; the result is the returned action and the updated maps.  The byte count
`ctx->data_end - ctx->data` is the buffer length (both fields are 32-bit offsets
of one frame, so the difference does not wrap). -/
def xdp_stats_record_action (buf : Packet) (st : Stats) (action : Nat) : Nat × Stats :=
  if action ≥ XDP_ACTION_MAX then (XDP_ABORTED, st)
  else
    match array_lookup XDP_ACTION_MAX st.xdp_stats_map action with
    | none => (XDP_ABORTED, st)
    | some r =>
      (action,
        { st with
          xdp_stats_map :=
            Function.update st.xdp_stats_map action
              { rx_packets := (r.rx_packets + 1) % U64_MOD
                rx_bytes := (r.rx_bytes + buf.length) % U64_MOD } })

/-- The function `xdp_openspa_stats_record_action` (`openspa_adk.c:68`): count one
event under `id`. -/
def xdp_openspa_stats_record_action (st : Stats) (id : Nat) : Int × Stats :=
  if id ≥ OSPA_STAT_ID_MAX then (-1, st)
  else
    match array_lookup OSPA_STAT_ID_MAX st.xdp_openspa_stats_map id with
    | none => (-1, st)
    | some r =>
      (0,
        { st with
          xdp_openspa_stats_map :=
            Function.update st.xdp_openspa_stats_map id
              { value := (r.value + 1) % U64_MOD } })

/-! ## Header parsers -/

/-- Result of a parser: the returned `int`, the cursor `nh->pos` afterwards, and
the header pointer handed back through the out-parameter (read by the caller only
after success). -/
structure ParseResult where
  ret : Int
  pos : Nat
  hdr : Nat
deriving DecidableEq, Repr

/-- The function `proto_is_vlan` (`openspa_adk.h:78`): `1` for the two VLAN EtherTypes (compared in
network byte order), else `0`. -/
def proto_is_vlan (h_proto : Nat) : Int :=
  if h_proto = bpf_htons ETH_P_8021Q ∨ h_proto = bpf_htons ETH_P_8021AD then 1 else 0

/-- State of the VLAN loop of `parse_ethhdr_vlan`. -/
structure VlanState where
  vlh : Nat
  h_proto : Nat
  vlans : Option (List Nat)
deriving DecidableEq, Repr

/-- The unrolled loop `for (i = 0; i < VLAN_MAX_DEPTH; i++)` of
`parse_ethhdr_vlan`, with `n` iterations left and loop index `i`. -/
def vlan_loop (buf : Packet) : Nat → Nat → VlanState → VlanState
  | 0, _, s => s
  | n + 1, i, s =>
    if proto_is_vlan s.h_proto = 0 then s
    else if s.vlh + SIZEOF_VLAN_HDR > buf.length then s
    else
      vlan_loop buf n (i + 1)
        { vlh := s.vlh + SIZEOF_VLAN_HDR
          h_proto := load16 buf (s.vlh + 2)
          vlans := s.vlans.map
            (fun v => v.set i (bpf_ntohs (load16 buf s.vlh) &&& VLAN_VID_MASK)) }

/-- The function `parse_ethhdr_vlan` (`openspa_adk.h:89`); the last component is the `vlans` array
afterwards (`none` for a `NULL` pointer). -/
def parse_ethhdr_vlan (buf : Packet) (nh : Nat) (vlans : Option (List Nat)) :
    ParseResult × Option (List Nat) :=
  let eth := nh
  let hdrsize := SIZEOF_ETHHDR
  if nh + hdrsize > buf.length then (⟨-1, nh, eth⟩, vlans)
  else
    let s := vlan_loop buf VLAN_MAX_DEPTH 0
      { vlh := nh + hdrsize, h_proto := load16 buf (eth + 12), vlans := vlans }
    (⟨(s.h_proto : Int), s.vlh, eth⟩, s.vlans)

/-- The function `parse_ethhdr` (`openspa_adk.h:134`): `parse_ethhdr_vlan` with a
`NULL` collector. -/
def parse_ethhdr (buf : Packet) (nh : Nat) : ParseResult :=
  (parse_ethhdr_vlan buf nh none).1

/-- The function `parse_iphdr` (`openspa_adk.h:142`).  The field `ihl` is the low
nibble of the first header byte, and `hdrsize`, between 0 and 60, is compared as a
natural number. -/
def parse_iphdr (buf : Packet) (nh : Nat) : ParseResult :=
  let iph := nh
  if iph + SIZEOF_IPHDR > buf.length then ⟨-1, nh, iph⟩
  else
    let hdrsize := (byteAt buf iph % 16) * 4
    if hdrsize < SIZEOF_IPHDR then ⟨-1, nh, iph⟩
    else if nh + hdrsize > buf.length then ⟨-1, nh, iph⟩
    else ⟨(byteAt buf (iph + 9) : Int), nh + hdrsize, iph⟩

/-- The function `parse_ip6hdr` (`openspa_adk.h:167`). -/
def parse_ip6hdr (buf : Packet) (nh : Nat) : ParseResult :=
  let ip6h := nh
  if ip6h + SIZEOF_IPV6HDR > buf.length then ⟨-1, nh, ip6h⟩
  else ⟨(byteAt buf (ip6h + 6) : Int), ip6h + SIZEOF_IPV6HDR, ip6h⟩

/-- Conversion of an unsigned 64-bit value to `int` (keep the low 32 bits, two's
complement). -/
def int_of_u64 (x : Nat) : Int :=
  if x % 4294967296 < 2147483648 then (x % 4294967296 : Nat)
  else ((x % 4294967296 : Nat) : Int) - 4294967296

/-- The function `parse_udphdr` (`openspa_adk.h:182`).  The cursor is advanced
before the length is looked at.  The subtraction `bpf_ntohs(h->len) -
sizeof(struct udphdr)` is done in `size_t` and stored in an `int`. -/
def parse_udphdr (buf : Packet) (nh : Nat) : ParseResult :=
  let h := nh
  if h + SIZEOF_UDPHDR > buf.length then ⟨-1, nh, h⟩
  else
    let len := int_of_u64 ((bpf_ntohs (load16 buf (h + 4)) + U64_MOD - SIZEOF_UDPHDR) % U64_MOD)
    if len < 0 then ⟨-1, h + SIZEOF_UDPHDR, h⟩
    else ⟨len, h + SIZEOF_UDPHDR, h⟩

/-- The function `parse_ospahdr` (`openspa_adk.h:202`). -/
def parse_ospahdr (buf : Packet) (nh : Nat) : ParseResult :=
  let h := nh
  if h + SIZEOF_OSPAHDR > buf.length then ⟨-1, nh, h⟩
  else ⟨0, h + SIZEOF_OSPAHDR, h⟩

/-- The function `potentially_ospa_packet` (`openspa_adk.h:221`): `0` if the data is potentially an
OpenSPA packet, `-1` if it is definitely not. -/
def potentially_ospa_packet (buf : Packet) (nh : Nat) (ospahdr : Nat) : Int :=
  let len : Int := (buf.length : Int) - (nh : Int)
  if len < OSPA_BODY_MIN_SIZE then -1
  else
    let version := ((byteAt buf ospahdr &&& OSPA_CTRL_VERSION_MASK) >>> OSPA_CTRL_VERSION_OFFSET) % 256
    if version ≠ 0x02 then -1 else 0

/-! ## Proof validator and configured port -/

/-- The loop `for (i = FIRST; i <= LAST; i++)` of `adk_proof_valid`, with `n`
iterations left and loop index `i`. -/
def adk_proof_loop (cfg : Config) (proof : Nat) : Nat → Nat → Int
  | 0, _ => -1
  | n + 1, i =>
    match cfg i with
    | none => 0
    | some val => if val = proof then 1 else adk_proof_loop cfg proof n (i + 1)

/-- The function `adk_proof_valid` (`openspa_adk.c:88`): `-1` proof is invalid, `0` lookup error, `1`
proof is valid.  The argument is the pointer `adk_proof` (`none` for `NULL`). -/
def adk_proof_valid (cfg : Config) (adk_proof : Option Nat) : Int :=
  match adk_proof with
  | none => -1
  | some proof =>
    if proof = 0 then -1
    else
      adk_proof_loop cfg proof
        (CONFIG_MAP_IDX_ADK_PROOF_LAST + 1 - CONFIG_MAP_IDX_ADK_PROOF_FIRST)
        CONFIG_MAP_IDX_ADK_PROOF_FIRST

/-- The function `openspa_server_port` (`openspa_adk.c:113`): the `__u32` slot truncated to `__u16`. -/
def openspa_server_port (cfg : Config) : Nat :=
  match cfg CONFIG_MAP_IDX_OPENSPA_SERVER_PORT with
  | none => 0
  | some val => val % 65536

/-! ## Decision pipeline -/

/-- The body of `xdp_openspa_adk` (`openspa_adk.c:126`) up to the label `out`: the chosen action and
the maps at that point (every `goto out` is a return from this function). -/
def xdp_openspa_adk_body (cfg : Config) (st : Stats) (buf : Packet) : Nat × Stats :=
  let action := XDP_PASS
  let eth := parse_ethhdr buf 0
  if eth.ret < 0 then (XDP_ABORTED, st)
  else
    let ip : Option ParseResult :=
      if eth.ret = (bpf_htons ETH_P_IP : Nat) then some (parse_iphdr buf eth.pos)
      else if eth.ret = (bpf_htons ETH_P_IPV6 : Nat) then some (parse_ip6hdr buf eth.pos)
      else none
    match ip with
    | none => (action, st)
    | some ip =>
      if ip.ret ≠ IPPROTO_UDP then (action, st)
      else
        let udp := parse_udphdr buf ip.pos
        if udp.ret < 0 then (XDP_ABORTED, st)
        else
          let ospa_server_port := openspa_server_port cfg
          if ospa_server_port = 0 then (action, st)
          else if bpf_ntohs (load16 buf (udp.hdr + 2)) ≠ ospa_server_port then (action, st)
          else
            let ospa := parse_ospahdr buf udp.pos
            if ospa.ret < 0 then
              (XDP_DROP, (xdp_openspa_stats_record_action st OSPA_STAT_ID_NOT_OPENSPA_PACKET).2)
            else if potentially_ospa_packet buf ospa.pos ospa.hdr < 0 then
              (XDP_DROP, (xdp_openspa_stats_record_action st OSPA_STAT_ID_NOT_OPENSPA_PACKET).2)
            else
              let adk_proof := bpf_ntohl (load32 buf (ospa.hdr + 4))
              if adk_proof_valid cfg (some adk_proof) ≤ 0 then
                (XDP_DROP, (xdp_openspa_stats_record_action st OSPA_STAT_ID_ADK_PROOF_INVALID).2)
              else
                (action, (xdp_openspa_stats_record_action st OSPA_STAT_ID_ADK_PROOF_VALID).2)

/-- The program `xdp_openspa_adk`: the body, then the statement at the label `out`,
`return xdp_stats_record_action(ctx, action)`.  The result is the returned action
and the maps afterwards. -/
def xdp_openspa_adk (cfg : Config) (st : Stats) (buf : Packet) : Nat × Stats :=
  let r := xdp_openspa_adk_body cfg st buf
  xdp_stats_record_action buf r.2 r.1

/-! ## Wire-level vocabulary

Big-endian field values and byte-level descriptions of frames, used to state the
properties below. -/

/-- Wire value of the big-endian 16-bit field at offset `off`. -/
def be16 (buf : Packet) (off : Nat) : Nat :=
  byteAt buf off * 256 + byteAt buf (off + 1)

/-- Wire value of the big-endian 32-bit field at offset `off`. -/
def be32 (buf : Packet) (off : Nat) : Nat :=
  byteAt buf off * 16777216 + byteAt buf (off + 1) * 65536 + byteAt buf (off + 2) * 256
    + byteAt buf (off + 3)

/-- The two VLAN EtherTypes. -/
def IsVlanType (e : Nat) : Prop := e = ETH_P_8021Q ∨ e = ETH_P_8021AD

instance (e : Nat) : Decidable (IsVlanType e) := by
  unfold IsVlanType; infer_instance

/-- The frame starts with an Ethernet header followed by `k` VLAN tags, with
`k ≤ VLAN_MAX_DEPTH`, all inside the buffer, and the EtherType after the last tag
is `ety`. -/
def EthFrame (buf : Packet) (k ety : Nat) : Prop :=
  k ≤ VLAN_MAX_DEPTH ∧ 14 + 4 * k ≤ buf.length ∧
    (∀ i, i < k → IsVlanType (be16 buf (12 + 4 * i))) ∧ be16 buf (12 + 4 * k) = ety

/-- A well-formed IPv4 header at offset `l3`: 20 bytes present, header-length
field at least 5, the whole header of `ihl * 4` bytes present and ending at `l4`,
protocol byte `proto`. -/
def Ipv4At (buf : Packet) (l3 l4 proto : Nat) : Prop :=
  l3 + 20 ≤ buf.length ∧ 5 ≤ byteAt buf l3 % 16 ∧ l4 = l3 + 4 * (byteAt buf l3 % 16) ∧
    l4 ≤ buf.length ∧ byteAt buf (l3 + 9) = proto

/-- A complete fixed IPv6 header at offset `l3`, ending at `l4`, next-header byte
`proto`. -/
def Ipv6At (buf : Packet) (l3 l4 proto : Nat) : Prop :=
  l3 + 40 ≤ buf.length ∧ l4 = l3 + 40 ∧ byteAt buf (l3 + 6) = proto

/-- The frame is Ethernet, at most two VLAN tags, and a well-formed IPv4 or IPv6
header carrying UDP; the transport header starts at offset `l4`. -/
def UdpFrame (buf : Packet) (l4 : Nat) : Prop :=
  ∃ k, (EthFrame buf k ETH_P_IP ∧ Ipv4At buf (14 + 4 * k) l4 17) ∨
    (EthFrame buf k ETH_P_IPV6 ∧ Ipv6At buf (14 + 4 * k) l4 17)

/-- The UDP header at `l4` is complete and declares a length of at least 8. -/
def UdpHeaderAt (buf : Packet) (l4 : Nat) : Prop :=
  l4 + 8 ≤ buf.length ∧ 8 ≤ be16 buf (l4 + 4)

/-- The scheme is active and the UDP destination port is the configured port. -/
def ToService (cfg : Config) (buf : Packet) (l4 : Nat) : Prop :=
  openspa_server_port cfg ≠ 0 ∧ be16 buf (l4 + 2) = openspa_server_port cfg

/-- The application header after the UDP header at `l4` is complete, at least 42
bytes follow it, and its version bits are 2. -/
def Plausible (buf : Packet) (l4 : Nat) : Prop :=
  l4 + 16 + 42 ≤ buf.length ∧ (byteAt buf (l4 + 8) &&& 0x70) >>> 4 = 2

instance (buf : Packet) (k ety : Nat) : Decidable (EthFrame buf k ety) := by
  unfold EthFrame; infer_instance

instance (buf : Packet) (l3 l4 proto : Nat) : Decidable (Ipv4At buf l3 l4 proto) := by
  unfold Ipv4At; infer_instance

instance (buf : Packet) (l3 l4 proto : Nat) : Decidable (Ipv6At buf l3 l4 proto) := by
  unfold Ipv6At; infer_instance

instance (buf : Packet) (l4 : Nat) : Decidable (UdpHeaderAt buf l4) := by
  unfold UdpHeaderAt; infer_instance

instance (cfg : Config) (buf : Packet) (l4 : Nat) : Decidable (ToService cfg buf l4) := by
  unfold ToService; infer_instance

instance (buf : Packet) (l4 : Nat) : Decidable (Plausible buf l4) := by
  unfold Plausible; infer_instance

/-- Value of the event counter `id`. -/
def Stats.event (st : Stats) (id : Nat) : Nat := (st.xdp_openspa_stats_map id).value

/-- Packet count of the action counter `a`. -/
def Stats.packets (st : Stats) (a : Nat) : Nat := (st.xdp_stats_map a).rx_packets

/-- Byte count of the action counter `a`. -/
def Stats.bytes (st : Stats) (a : Nat) : Nat := (st.xdp_stats_map a).rx_bytes

/-- The link header parses to EtherType IPv4 or IPv6 and the network parser that
`xdp_openspa_adk` then runs returns `r`. -/
def NetworkParse (buf : Packet) (r : ParseResult) : Prop :=
  ((parse_ethhdr buf 0).ret = (bpf_htons ETH_P_IP : Nat) ∧
      r = parse_iphdr buf (parse_ethhdr buf 0).pos) ∨
    ((parse_ethhdr buf 0).ret = (bpf_htons ETH_P_IPV6 : Nat) ∧
      r = parse_ip6hdr buf (parse_ethhdr buf 0).pos)

/-- The network header parses with transport protocol UDP and leaves the cursor
at `l4`. -/
def UdpOverIp (buf : Packet) (l4 : Nat) : Prop :=
  ∃ r, NetworkParse buf r ∧ r.ret = IPPROTO_UDP ∧ r.pos = l4

/-- The frame reaches proof validation: UDP to the non-zero configured port,
application header present, version bits 2, at least 42 bytes after the header.
The transport header is at `l4`, the proof field at `l4 + 12`. -/
def ReachesProofValidation (cfg : Config) (buf : Packet) (l4 : Nat) : Prop :=
  UdpOverIp buf l4 ∧ UdpHeaderAt buf l4 ∧ ToService cfg buf l4 ∧ Plausible buf l4

/-! ## Stages of the pipeline

The tail of `xdp_openspa_adk_body` from a given point on, named so that the
lemmas below can follow the function stage by stage (`body_eq`). -/

/-- The transport stage of `xdp_openspa_adk` (from `parse_udphdr` to the label
`out`) with the cursor at `l4`. -/
def transport_stage (cfg : Config) (st : Stats) (buf : Packet) (l4 : Nat) : Nat × Stats :=
  let udp := parse_udphdr buf l4
  if udp.ret < 0 then (XDP_ABORTED, st)
  else
    if openspa_server_port cfg = 0 then (XDP_PASS, st)
    else if bpf_ntohs (load16 buf (udp.hdr + 2)) ≠ openspa_server_port cfg then (XDP_PASS, st)
    else
      let ospa := parse_ospahdr buf udp.pos
      if ospa.ret < 0 then
        (XDP_DROP, (xdp_openspa_stats_record_action st OSPA_STAT_ID_NOT_OPENSPA_PACKET).2)
      else if potentially_ospa_packet buf ospa.pos ospa.hdr < 0 then
        (XDP_DROP, (xdp_openspa_stats_record_action st OSPA_STAT_ID_NOT_OPENSPA_PACKET).2)
      else
        if adk_proof_valid cfg (some (bpf_ntohl (load32 buf (ospa.hdr + 4)))) ≤ 0 then
          (XDP_DROP, (xdp_openspa_stats_record_action st OSPA_STAT_ID_ADK_PROOF_INVALID).2)
        else
          (XDP_PASS, (xdp_openspa_stats_record_action st OSPA_STAT_ID_ADK_PROOF_VALID).2)

/-- The part of `xdp_openspa_adk` after the network parser has returned `ip`. -/
def network_stage (cfg : Config) (st : Stats) (buf : Packet) (ip : ParseResult) : Nat × Stats :=
  if ip.ret ≠ IPPROTO_UDP then (XDP_PASS, st) else transport_stage cfg st buf ip.pos

/-- The application stage of `xdp_openspa_adk` (from `parse_ospahdr` to the
label `out`) with the cursor at `l5`. -/
def application_stage (cfg : Config) (st : Stats) (buf : Packet) (l5 : Nat) : Nat × Stats :=
  let ospa := parse_ospahdr buf l5
  if ospa.ret < 0 then
    (XDP_DROP, (xdp_openspa_stats_record_action st OSPA_STAT_ID_NOT_OPENSPA_PACKET).2)
  else if potentially_ospa_packet buf ospa.pos ospa.hdr < 0 then
    (XDP_DROP, (xdp_openspa_stats_record_action st OSPA_STAT_ID_NOT_OPENSPA_PACKET).2)
  else
    if adk_proof_valid cfg (some (bpf_ntohl (load32 buf (ospa.hdr + 4)))) ≤ 0 then
      (XDP_DROP, (xdp_openspa_stats_record_action st OSPA_STAT_ID_ADK_PROOF_INVALID).2)
    else
      (XDP_PASS, (xdp_openspa_stats_record_action st OSPA_STAT_ID_ADK_PROOF_VALID).2)

/-! ## Example frames and tables -/

/-- A 92-byte frame: Ethernet, IPv4 (20-byte header, protocol UDP), UDP with
destination port bytes `dhi dlo` and declared length 58, OpenSPA header with
control byte `0x20` and proof bytes `p0 p1 p2 p3`, 42 body bytes. -/
def mkFrame (dhi dlo : Fin 256) (p0 p1 p2 p3 : Fin 256) : Packet :=
  [0, 0, 0, 0, 0, 1, 0, 0, 0, 0, 0, 2, 0x08, 0x00] ++
  [0x45, 0, 0, 78, 0, 0, 0, 0, 64, 17, 0, 0, 10, 0, 0, 1, 10, 0, 0, 2] ++
  [0x30, 0x39, dhi, dlo, 0, 58, 0, 0] ++
  [0x20, 1, 1, 0, p0, p1, p2, p3] ++
  List.replicate 42 0

/-- Configuration with port 12345 and allow-list `0xAABBCCDD` (second slot unset,
i.e. `0`). -/
def cfgExample : Config := fun k =>
  if k = 0 then some 12345 else if k = 1 then some 0xAABBCCDD else if k = 2 then some 0 else none

/-- A frame whose link header announces IPv4 and which ends right after it. -/
def frameNoIp : Packet := [0, 0, 0, 0, 0, 1, 0, 0, 0, 0, 0, 2, 0x08, 0x00]

/-- A frame like `mkFrame` whose protocol byte is TCP (6). -/
def frameTcp : Packet :=
  [0, 0, 0, 0, 0, 1, 0, 0, 0, 0, 0, 2, 0x08, 0x00] ++
  [0x45, 0, 0, 40, 0, 0, 0, 0, 64, 6, 0, 0, 10, 0, 0, 1, 10, 0, 0, 2] ++
  List.replicate 20 0

/-- A frame like `mkFrame` that ends after the UDP header and four more bytes. -/
def frameShortApp : Packet :=
  [0, 0, 0, 0, 0, 1, 0, 0, 0, 0, 0, 2, 0x08, 0x00] ++
  [0x45, 0, 0, 32, 0, 0, 0, 0, 64, 17, 0, 0, 10, 0, 0, 1, 10, 0, 0, 2] ++
  [0x30, 0x39, 0x30, 0x39, 0, 12, 0, 0] ++
  [0x20, 1, 1, 0]

/-- Counters with some history. -/
def stSome : Stats := ⟨fun a => ⟨10 + a, 1000⟩, fun id => ⟨5 + id⟩⟩

/-- The frame accepted in the concrete scenario of the specification. -/
def frameValid : Packet := mkFrame 0x30 0x39 0xAA 0xBB 0xCC 0xDD

/-- The same frame with proof `0x11111111`. -/
def frameInvalid : Packet := mkFrame 0x30 0x39 0x11 0x11 0x11 0x11

/-- The same frame with proof `0`. -/
def frameZero : Packet := mkFrame 0x30 0x39 0 0 0 0

/-- The same frame sent to port 9999. -/
def frameOtherPort : Packet := mkFrame 0x27 0x0F 0xAA 0xBB 0xCC 0xDD

/-- A frame like `mkFrame` that ends four bytes into the UDP header. -/
def frameShortUdp : Packet :=
  [0, 0, 0, 0, 0, 1, 0, 0, 0, 0, 0, 2, 0x08, 0x00] ++
  [0x45, 0, 0, 24, 0, 0, 0, 0, 64, 17, 0, 0, 10, 0, 0, 1, 10, 0, 0, 2] ++
  [0x30, 0x39, 0x30, 0x39]

/-- A frame like `mkFrame` that ends right after a UDP header declaring a total
length of 65535. -/
def frameUdpOverrun : Packet :=
  [0, 0, 0, 0, 0, 1, 0, 0, 0, 0, 0, 2, 0x08, 0x00] ++
  [0x45, 0, 0, 28, 0, 0, 0, 0, 64, 17, 0, 0, 10, 0, 0, 1, 10, 0, 0, 2] ++
  [0x30, 0x39, 0x30, 0x39, 0xFF, 0xFF, 0, 0]

/-- Reference for `adk_proof_valid`, written from the specification: invalid
(`-1`) at once for the sentinel proof `0`; otherwise slot 1, then slot 2, is read
and compared for equality, valid (`1`) at the first match, lookup-error (`0`) when
a read fails before a match, invalid (`-1`) when both were read without a match. -/
def adk_proof_valid_ref (cfg : Config) (proof : Nat) : Int :=
  if proof = 0 then -1
  else
    match cfg 1 with
    | none => 0
    | some s1 =>
      if s1 = proof then 1
      else
        match cfg 2 with
        | none => 0
        | some s2 => if s2 = proof then 1 else -1

/-- Configuration with port 12345 whose allow-list slots cannot be read. -/
def cfgNoSlots : Config := fun k => if k = 0 then some 12345 else none

/-- The buffer holds, from cursor `nh`, an Ethernet header and `k` VLAN tags that
the link parser can unwrap: `k` is at most `VLAN_MAX_DEPTH`, the link EtherType
and the inner EtherTypes of the first `k - 1` tags are VLAN types, and each of the
`k` tags lies fully inside the buffer. -/
def VlanTags (buf : Packet) (nh k : Nat) : Prop :=
  k ≤ VLAN_MAX_DEPTH ∧ (∀ i, i < k → IsVlanType (be16 buf (nh + 12 + 4 * i))) ∧
    nh + 14 + 4 * k ≤ buf.length

instance (buf : Packet) (nh k : Nat) : Decidable (VlanTags buf nh k) := by
  unfold VlanTags; infer_instance

/-- A frame with three VLAN tags (types `0x88A8`, `0x8100`, `0x8100`) in front of
the EtherType IPv4, and nothing after it. -/
def frameTripleVlan : Packet :=
  [0, 0, 0, 0, 0, 1, 0, 0, 0, 0, 0, 2, 0x88, 0xA8] ++
  [0, 10, 0x81, 0x00] ++ [0, 20, 0x81, 0x00] ++ [0, 30, 0x08, 0x00]

/-- An IPv6 frame whose fixed header announces a hop-by-hop extension header
(next header 0); the extension header announces UDP and is followed by a datagram
to port 12345 with a valid OpenSPA header. -/
def frameV6Ext : Packet :=
  [0, 0, 0, 0, 0, 1, 0, 0, 0, 0, 0, 2, 0x86, 0xDD] ++
  [0x60, 0, 0, 0, 0, 66, 0, 64] ++ List.replicate 32 0 ++
  [17, 0, 0, 0, 0, 0, 0, 0] ++
  [0x30, 0x39, 0x30, 0x39, 0, 58, 0, 0] ++
  [0x20, 1, 1, 0, 0xAA, 0xBB, 0xCC, 0xDD] ++
  List.replicate 42 0

/-- The same datagram directly after the fixed IPv6 header (next header 17). -/
def frameV6Udp : Packet :=
  [0, 0, 0, 0, 0, 1, 0, 0, 0, 0, 0, 2, 0x86, 0xDD] ++
  [0x60, 0, 0, 0, 0, 58, 17, 64] ++ List.replicate 32 0 ++
  [0x30, 0x39, 0x30, 0x39, 0, 58, 0, 0] ++
  [0x20, 1, 1, 0, 0xAA, 0xBB, 0xCC, 0xDD] ++
  List.replicate 42 0

/-! ## Parsers with checked reads

The same parsers over a memory model in which a read outside the buffer is a
fault (`none`).  They are compared below with the parsers above, whose reads
default to `0`. -/

/-- Checked read of the byte at offset `i`: `none` outside the buffer. -/
def byteAtChecked (buf : Packet) (i : Nat) : Option Nat := buf[i]?.map (fun b => b.val)

/-- Checked native load of a 16-bit field at offset `off`. -/
def load16Checked (buf : Packet) (off : Nat) : Option Nat :=
  (byteAtChecked buf off).bind fun a =>
    (byteAtChecked buf (off + 1)).bind fun b => some (a + 256 * b)

/-- The VLAN loop of `parse_ethhdr_vlan` with checked reads; the TCI field is read
only when VLAN ids are collected. -/
def vlan_loop_checked (buf : Packet) : Nat → Nat → VlanState → Option VlanState
  | 0, _, s => some s
  | n + 1, i, s =>
    if proto_is_vlan s.h_proto = 0 then some s
    else if s.vlh + SIZEOF_VLAN_HDR > buf.length then some s
    else
      (load16Checked buf (s.vlh + 2)).bind fun inner =>
        (match s.vlans with
          | none => some none
          | some v =>
            (load16Checked buf s.vlh).map
              (fun tci => some (v.set i (bpf_ntohs tci &&& VLAN_VID_MASK)))).bind fun vl =>
          vlan_loop_checked buf n (i + 1)
            { vlh := s.vlh + SIZEOF_VLAN_HDR, h_proto := inner, vlans := vl }

/-- The function `parse_ethhdr_vlan` with checked reads. -/
def parse_ethhdr_vlan_checked (buf : Packet) (nh : Nat) (vlans : Option (List Nat)) :
    Option (ParseResult × Option (List Nat)) :=
  let eth := nh
  let hdrsize := SIZEOF_ETHHDR
  if nh + hdrsize > buf.length then some (⟨-1, nh, eth⟩, vlans)
  else
    (load16Checked buf (eth + 12)).bind fun h_proto =>
      (vlan_loop_checked buf VLAN_MAX_DEPTH 0
          { vlh := nh + hdrsize, h_proto := h_proto, vlans := vlans }).map
        fun s => (⟨(s.h_proto : Int), s.vlh, eth⟩, s.vlans)

/-- The function `parse_iphdr` with checked reads. -/
def parse_iphdr_checked (buf : Packet) (nh : Nat) : Option ParseResult :=
  let iph := nh
  if iph + SIZEOF_IPHDR > buf.length then some ⟨-1, nh, iph⟩
  else
    (byteAtChecked buf iph).bind fun b0 =>
      let hdrsize := (b0 % 16) * 4
      if hdrsize < SIZEOF_IPHDR then some ⟨-1, nh, iph⟩
      else if nh + hdrsize > buf.length then some ⟨-1, nh, iph⟩
      else (byteAtChecked buf (iph + 9)).map fun proto => ⟨(proto : Int), nh + hdrsize, iph⟩

/-- The function `parse_ip6hdr` with checked reads. -/
def parse_ip6hdr_checked (buf : Packet) (nh : Nat) : Option ParseResult :=
  let ip6h := nh
  if ip6h + SIZEOF_IPV6HDR > buf.length then some ⟨-1, nh, ip6h⟩
  else
    (byteAtChecked buf (ip6h + 6)).map fun nexthdr =>
      ⟨(nexthdr : Int), ip6h + SIZEOF_IPV6HDR, ip6h⟩

/-- The function `parse_udphdr` with checked reads. -/
def parse_udphdr_checked (buf : Packet) (nh : Nat) : Option ParseResult :=
  let h := nh
  if h + SIZEOF_UDPHDR > buf.length then some ⟨-1, nh, h⟩
  else
    (load16Checked buf (h + 4)).map fun l =>
      let len := int_of_u64 ((bpf_ntohs l + U64_MOD - SIZEOF_UDPHDR) % U64_MOD)
      if len < 0 then ⟨-1, h + SIZEOF_UDPHDR, h⟩ else ⟨len, h + SIZEOF_UDPHDR, h⟩

/-- The function `parse_ospahdr` with checked reads (it reads no byte). -/
def parse_ospahdr_checked (buf : Packet) (nh : Nat) : Option ParseResult :=
  let h := nh
  if h + SIZEOF_OSPAHDR > buf.length then some ⟨-1, nh, h⟩
  else some ⟨0, h + SIZEOF_OSPAHDR, h⟩

/-- The values taken by the cursor `nh.pos` during one run of `xdp_openspa_adk`:
the start of the buffer, then the position after each parser call on the path
taken, in order. -/
def xdp_openspa_adk_cursor (cfg : Config) (buf : Packet) : List Nat :=
  let eth := parse_ethhdr buf 0
  if eth.ret < 0 then [0, eth.pos]
  else
    let ip : Option ParseResult :=
      if eth.ret = (bpf_htons ETH_P_IP : Nat) then some (parse_iphdr buf eth.pos)
      else if eth.ret = (bpf_htons ETH_P_IPV6 : Nat) then some (parse_ip6hdr buf eth.pos)
      else none
    match ip with
    | none => [0, eth.pos]
    | some ip =>
      if ip.ret ≠ IPPROTO_UDP then [0, eth.pos, ip.pos]
      else
        let udp := parse_udphdr buf ip.pos
        if udp.ret < 0 then [0, eth.pos, ip.pos, udp.pos]
        else
          let ospa_server_port := openspa_server_port cfg
          if ospa_server_port = 0 then [0, eth.pos, ip.pos, udp.pos]
          else if bpf_ntohs (load16 buf (udp.hdr + 2)) ≠ ospa_server_port then
            [0, eth.pos, ip.pos, udp.pos]
          else
            let ospa := parse_ospahdr buf udp.pos
            [0, eth.pos, ip.pos, udp.pos, ospa.pos]

/-- Counters in which the proof-invalid counter is at its maximum `2^64 - 1`. -/
def stFull : Stats :=
  ⟨fun _ => ⟨0, 0⟩, fun id => if id = OSPA_STAT_ID_ADK_PROOF_INVALID then ⟨U64_MOD - 1⟩ else ⟨7⟩⟩

/-- Configuration like `cfgExample` with slot 0 holding `v`. -/
def cfgPort (v : Nat) : Config := fun k =>
  if k = 0 then some v else if k = 1 then some 0xAABBCCDD else if k = 2 then some 0 else none

/-- A frame like `frameShortApp`, sent to UDP port `p % 65536`: four bytes follow
the UDP header. -/
def frameToPort (p : Nat) : Packet :=
  [0, 0, 0, 0, 0, 1, 0, 0, 0, 0, 0, 2, 0x08, 0x00] ++
  [0x45, 0, 0, 32, 0, 0, 0, 0, 64, 17, 0, 0, 10, 0, 0, 1, 10, 0, 0, 2] ++
  [0x30, 0x39, ⟨p / 256 % 256, Nat.mod_lt _ (by decide)⟩, ⟨p % 256, Nat.mod_lt _ (by decide)⟩,
    0, 12, 0, 0] ++
  [0x20, 1, 1, 0]

/-- The counter tables after recording the event `ev`, or no event. -/
def record_opt (st : Stats) (ev : Option Nat) : Stats :=
  match ev with
  | none => st
  | some id => (xdp_openspa_stats_record_action st id).2

/-! ## Bytes and byte order -/

theorem byteAt_lt (buf : Packet) (i : Nat) : byteAt buf i < 256 := by
  unfold byteAt; exact (buf.getD i 0).isLt

theorem be16_lt (buf : Packet) (off : Nat) : be16 buf off < 65536 := by
  have h0 := byteAt_lt buf off
  have h1 := byteAt_lt buf (off + 1)
  unfold be16; omega

theorem load16_lt (buf : Packet) (off : Nat) : load16 buf off < 65536 := by
  have h0 := byteAt_lt buf off
  have h1 := byteAt_lt buf (off + 1)
  unfold load16; omega

theorem be32_lt (buf : Packet) (off : Nat) : be32 buf off < 4294967296 := by
  have h0 := byteAt_lt buf off
  have h1 := byteAt_lt buf (off + 1)
  have h2 := byteAt_lt buf (off + 2)
  have h3 := byteAt_lt buf (off + 3)
  unfold be32; omega

theorem bpf_ntohs_load16 (buf : Packet) (off : Nat) :
    bpf_ntohs (load16 buf off) = be16 buf off := by
  have h0 := byteAt_lt buf off
  have h1 := byteAt_lt buf (off + 1)
  unfold bpf_ntohs load16 be16; omega

theorem bpf_ntohl_load32 (buf : Packet) (off : Nat) :
    bpf_ntohl (load32 buf off) = be32 buf off := by
  have h0 := byteAt_lt buf off
  have h1 := byteAt_lt buf (off + 1)
  have h2 := byteAt_lt buf (off + 2)
  have h3 := byteAt_lt buf (off + 3)
  unfold bpf_ntohl load32 be32; omega

theorem load16_eq_htons_iff (buf : Packet) (off x : Nat) (hx : x < 65536) :
    load16 buf off = bpf_htons x ↔ be16 buf off = x := by
  have h0 := byteAt_lt buf off
  have h1 := byteAt_lt buf (off + 1)
  have hq : x / 256 < 256 := by omega
  have hm : (x / 256) % 256 = x / 256 := Nat.mod_eq_of_lt hq
  unfold bpf_htons load16 be16
  rw [hm]; omega

theorem proto_is_vlan_load16 (buf : Packet) (off : Nat) :
    proto_is_vlan (load16 buf off) = if IsVlanType (be16 buf off) then 1 else 0 := by
  unfold proto_is_vlan IsVlanType
  simp only [load16_eq_htons_iff buf off ETH_P_8021Q (by decide),
    load16_eq_htons_iff buf off ETH_P_8021AD (by decide)]

theorem int_of_u64_sub (n : Nat) (hn : n < 65536) :
    int_of_u64 ((n + U64_MOD - SIZEOF_UDPHDR) % U64_MOD) = (n : Int) - 8 := by
  unfold int_of_u64 U64_MOD SIZEOF_UDPHDR
  by_cases h : 8 ≤ n
  · have e : (n + 18446744073709551616 - 8) % 18446744073709551616 = n - 8 := by omega
    rw [e]
    have e2 : (n - 8) % 4294967296 = n - 8 := by omega
    rw [e2, if_pos (by omega)]
    omega
  · have e : (n + 18446744073709551616 - 8) % 18446744073709551616
        = n + 18446744073709551608 := by omega
    rw [e]
    have e2 : (n + 18446744073709551608) % 4294967296 = n + 4294967288 := by omega
    rw [e2, if_neg (by omega)]
    omega

/-! ## Parsers on described frames -/

theorem vlan_loop_stop (buf : Packet) (n i : Nat) (s : VlanState)
    (h : proto_is_vlan s.h_proto = 0) : vlan_loop buf n i s = s := by
  cases n with
  | zero => rfl
  | succ n => simp [vlan_loop, h]

theorem vlan_loop_short (buf : Packet) (n i : Nat) (s : VlanState)
    (h : buf.length < s.vlh + 4) : vlan_loop buf n i s = s := by
  cases n with
  | zero => rfl
  | succ n =>
    simp only [vlan_loop, SIZEOF_VLAN_HDR]
    split_ifs <;> rfl

theorem vlan_loop_step (buf : Packet) (n i : Nat) (s : VlanState)
    (h : proto_is_vlan s.h_proto = 1) (hl : s.vlh + 4 ≤ buf.length) :
    vlan_loop buf (n + 1) i s =
      vlan_loop buf n (i + 1)
        { vlh := s.vlh + 4
          h_proto := load16 buf (s.vlh + 2)
          vlans := s.vlans.map
            (fun v => v.set i (bpf_ntohs (load16 buf s.vlh) &&& VLAN_VID_MASK)) } := by
  simp only [vlan_loop, SIZEOF_VLAN_HDR, h]
  rw [if_neg (by decide), if_neg (by omega)]

/-- Link parse of a frame with `k` VLAN tags at which unwrapping stops. -/
theorem parse_ethhdr_of_frame (buf : Packet) (k ety : Nat) (h : EthFrame buf k ety)
    (hs : ¬ IsVlanType ety ∨ k = 2 ∨ buf.length < 14 + 4 * k + 4) :
    parse_ethhdr buf 0 = ⟨(load16 buf (12 + 4 * k) : Nat), 14 + 4 * k, 0⟩ := by
  obtain ⟨hk, hlen, hv, hety⟩ := h
  unfold VLAN_MAX_DEPTH at hk
  have hstop : ∀ n i (vl : Option (List Nat)), k < 2 →
      vlan_loop buf n i ⟨14 + 4 * k, load16 buf (12 + 4 * k), vl⟩ =
        ⟨14 + 4 * k, load16 buf (12 + 4 * k), vl⟩ := by
    intro n i vl hk2
    rcases hs with hs | hs | hs
    · apply vlan_loop_stop
      simp only [proto_is_vlan_load16, hety, if_neg hs]
    · omega
    · apply vlan_loop_short
      simp only; omega
  have hlen14 : ¬ (0 + 14 > buf.length) := by omega
  unfold parse_ethhdr parse_ethhdr_vlan
  simp only [SIZEOF_ETHHDR, VLAN_MAX_DEPTH, if_neg hlen14]
  have key : vlan_loop buf 2 0 ⟨0 + 14, load16 buf (0 + 12), none⟩ =
      ⟨14 + 4 * k, load16 buf (12 + 4 * k), none⟩ := by
    interval_cases k
    · exact hstop 2 0 none (by omega)
    · have hv0 := hv 0 (by omega)
      rw [vlan_loop_step buf 1 0 _ (by simp only [proto_is_vlan_load16]; rw [if_pos hv0])
        (by simp only; omega)]
      exact hstop 1 1 none (by omega)
    · have hv0 := hv 0 (by omega)
      have hv1 := hv 1 (by omega)
      rw [vlan_loop_step buf 1 0 _ (by simp only [proto_is_vlan_load16]; rw [if_pos hv0])
        (by simp only; omega)]
      rw [vlan_loop_step buf 0 1 _ (by simp only [proto_is_vlan_load16]; rw [if_pos hv1])
        (by simp only; omega)]
      rfl
  rw [key]

theorem parse_iphdr_of (buf : Packet) (l3 l4 proto : Nat) (h : Ipv4At buf l3 l4 proto) :
    parse_iphdr buf l3 = ⟨(proto : Nat), l4, l3⟩ := by
  obtain ⟨h20, hihl, hl4, hlen, hp⟩ := h
  unfold parse_iphdr
  simp only [SIZEOF_IPHDR]
  rw [if_neg (by omega), if_neg (by omega), if_neg (by omega), hp]
  congr 1; omega

theorem parse_ip6hdr_of (buf : Packet) (l3 l4 proto : Nat) (h : Ipv6At buf l3 l4 proto) :
    parse_ip6hdr buf l3 = ⟨(proto : Nat), l4, l3⟩ := by
  obtain ⟨h40, hl4, hp⟩ := h
  unfold parse_ip6hdr
  simp only [SIZEOF_IPV6HDR]
  rw [if_neg (by omega), hp, hl4]

theorem parse_udphdr_ret_neg_iff (buf : Packet) (l4 : Nat) :
    (parse_udphdr buf l4).ret < 0 ↔ buf.length < l4 + 8 ∨ be16 buf (l4 + 4) < 8 := by
  unfold parse_udphdr
  simp only [bpf_ntohs_load16, int_of_u64_sub _ (be16_lt buf (l4 + 4))]
  by_cases h : l4 + SIZEOF_UDPHDR > buf.length
  · rw [if_pos h]
    unfold SIZEOF_UDPHDR at h
    simp only [Int.reduceNeg, Int.reduceLT, true_iff]
    omega
  · rw [if_neg h]
    unfold SIZEOF_UDPHDR at h
    split
    · next hneg => simp only [Int.reduceNeg, Int.reduceLT, true_iff]; omega
    · next hneg => simp only; omega

theorem parse_udphdr_of (buf : Packet) (l4 : Nat) (h : UdpHeaderAt buf l4) :
    parse_udphdr buf l4 = ⟨(be16 buf (l4 + 4) : Int) - 8, l4 + 8, l4⟩ := by
  obtain ⟨hlen, hd⟩ := h
  unfold parse_udphdr
  simp only [bpf_ntohs_load16, int_of_u64_sub _ (be16_lt buf (l4 + 4))]
  simp only [SIZEOF_UDPHDR]
  rw [if_neg (by omega), if_neg (by omega)]

/-! ## Statistics -/

theorem record_event_map (st : Stats) (id : Nat) (h : id < OSPA_STAT_ID_MAX) :
    (xdp_openspa_stats_record_action st id).2 =
      { st with
        xdp_openspa_stats_map :=
          Function.update st.xdp_openspa_stats_map id
            { value := ((st.xdp_openspa_stats_map id).value + 1) % U64_MOD } } := by
  unfold xdp_openspa_stats_record_action array_lookup
  rw [if_neg (by omega), if_pos h]

theorem record_event_same (st : Stats) (id : Nat) (h : id < OSPA_STAT_ID_MAX) :
    (xdp_openspa_stats_record_action st id).2.event id = (st.event id + 1) % U64_MOD := by
  rw [record_event_map st id h]
  simp [Stats.event]

theorem record_event_other (st : Stats) (id j : Nat) (h : id < OSPA_STAT_ID_MAX)
    (hj : j ≠ id) : (xdp_openspa_stats_record_action st id).2.event j = st.event j := by
  rw [record_event_map st id h]
  simp [Stats.event, Function.update, hj]

theorem record_event_stats (st : Stats) (id : Nat) :
    (xdp_openspa_stats_record_action st id).2.xdp_stats_map = st.xdp_stats_map := by
  unfold xdp_openspa_stats_record_action
  split
  · rfl
  · split <;> rfl

/-- Below its maximum a 64-bit counter's increment is the plain successor, and a
counter that can take the addition without wrapping grows by exactly that much. -/
theorem u64_add_of_lt (x n : Nat) (h : x + n < U64_MOD) : (x + n) % U64_MOD = x + n :=
  Nat.mod_eq_of_lt h

theorem record_action_of_lt (buf : Packet) (st : Stats) (a : Nat) (h : a < XDP_ACTION_MAX) :
    xdp_stats_record_action buf st a =
      (a, { st with
            xdp_stats_map :=
              Function.update st.xdp_stats_map a
                { rx_packets := ((st.xdp_stats_map a).rx_packets + 1) % U64_MOD
                  rx_bytes := ((st.xdp_stats_map a).rx_bytes + buf.length) % U64_MOD } }) := by
  unfold xdp_stats_record_action array_lookup
  rw [if_neg (by omega), if_pos h]

/-! ## Structure of the pipeline -/

/-- The body of `xdp_openspa_adk`, stage by stage. -/
theorem body_eq (cfg : Config) (st : Stats) (buf : Packet) :
    xdp_openspa_adk_body cfg st buf =
      if (parse_ethhdr buf 0).ret < 0 then (XDP_ABORTED, st)
      else if (parse_ethhdr buf 0).ret = (bpf_htons ETH_P_IP : Nat) then
        network_stage cfg st buf (parse_iphdr buf (parse_ethhdr buf 0).pos)
      else if (parse_ethhdr buf 0).ret = (bpf_htons ETH_P_IPV6 : Nat) then
        network_stage cfg st buf (parse_ip6hdr buf (parse_ethhdr buf 0).pos)
      else (XDP_PASS, st) := by
  unfold xdp_openspa_adk_body network_stage transport_stage
  by_cases h0 : (parse_ethhdr buf 0).ret < 0
  · simp only [if_pos h0]
  · by_cases h1 : (parse_ethhdr buf 0).ret = (bpf_htons ETH_P_IP : Nat)
    · simp only [if_neg h0, if_pos h1]
    · by_cases h2 : (parse_ethhdr buf 0).ret = (bpf_htons ETH_P_IPV6 : Nat)
      · simp only [if_neg h0, if_neg h1, if_pos h2]
      · simp only [if_neg h0, if_neg h1, if_neg h2]

theorem transport_stage_cases (cfg : Config) (st : Stats) (buf : Packet) (l4 : Nat) :
    (transport_stage cfg st buf l4).1 = XDP_ABORTED ∨
      (transport_stage cfg st buf l4).1 = XDP_DROP ∨
      (transport_stage cfg st buf l4).1 = XDP_PASS := by
  unfold transport_stage
  simp only
  split_ifs <;> simp

theorem transport_stage_stats (cfg : Config) (st : Stats) (buf : Packet) (l4 : Nat) :
    (transport_stage cfg st buf l4).2.xdp_stats_map = st.xdp_stats_map := by
  unfold transport_stage
  simp only
  split_ifs <;> simp [record_event_stats]

theorem body_action_cases (cfg : Config) (st : Stats) (buf : Packet) :
    (xdp_openspa_adk_body cfg st buf).1 = XDP_ABORTED ∨
      (xdp_openspa_adk_body cfg st buf).1 = XDP_DROP ∨
      (xdp_openspa_adk_body cfg st buf).1 = XDP_PASS := by
  rw [body_eq]
  unfold network_stage
  split_ifs <;> first | exact transport_stage_cases _ _ _ _ | simp

theorem body_action_lt (cfg : Config) (st : Stats) (buf : Packet) :
    (xdp_openspa_adk_body cfg st buf).1 < XDP_ACTION_MAX := by
  rcases body_action_cases cfg st buf with h | h | h <;> rw [h] <;> decide

theorem body_stats (cfg : Config) (st : Stats) (buf : Packet) :
    (xdp_openspa_adk_body cfg st buf).2.xdp_stats_map = st.xdp_stats_map := by
  rw [body_eq]
  unfold network_stage
  split_ifs <;> first | exact transport_stage_stats _ _ _ _ | rfl

theorem adk_action (cfg : Config) (st : Stats) (buf : Packet) :
    (xdp_openspa_adk cfg st buf).1 = (xdp_openspa_adk_body cfg st buf).1 := by
  unfold xdp_openspa_adk
  simp only [record_action_of_lt _ _ _ (body_action_lt cfg st buf)]

theorem adk_event (cfg : Config) (st : Stats) (buf : Packet) (id : Nat) :
    (xdp_openspa_adk cfg st buf).2.event id = (xdp_openspa_adk_body cfg st buf).2.event id := by
  unfold xdp_openspa_adk
  simp only [record_action_of_lt _ _ _ (body_action_lt cfg st buf), Stats.event]

theorem body_of_networkParse (cfg : Config) (st : Stats) (buf : Packet) (r : ParseResult)
    (h : NetworkParse buf r) :
    xdp_openspa_adk_body cfg st buf = network_stage cfg st buf r := by
  have hne : ((bpf_htons ETH_P_IPV6 : Nat) : Int) ≠ ((bpf_htons ETH_P_IP : Nat) : Int) := by
    decide
  rw [body_eq]
  rcases h with ⟨he, hp⟩ | ⟨he, hp⟩
  · have hnn : ¬ (parse_ethhdr buf 0).ret < 0 := by rw [he]; decide
    rw [if_neg hnn, if_pos he, hp]
  · have hnn : ¬ (parse_ethhdr buf 0).ret < 0 := by rw [he]; decide
    have h1 : ¬ (parse_ethhdr buf 0).ret = (bpf_htons ETH_P_IP : Nat) := by rw [he]; exact hne
    rw [if_neg hnn, if_neg h1, if_pos he, hp]

theorem body_of_udpOverIp (cfg : Config) (st : Stats) (buf : Packet) (l4 : Nat)
    (h : UdpOverIp buf l4) :
    xdp_openspa_adk_body cfg st buf = transport_stage cfg st buf l4 := by
  obtain ⟨r, hr, hret, hpos⟩ := h
  rw [body_of_networkParse cfg st buf r hr]
  unfold network_stage
  rw [if_neg (by simp [hret]), hpos]

theorem version_bits_lt (b : Nat) : ((b &&& 0x70) >>> 4) % 256 = (b &&& 0x70) >>> 4 := by
  apply Nat.mod_eq_of_lt
  have h : b &&& 0x70 ≤ 0x70 := Nat.and_le_right
  rw [Nat.shiftRight_eq_div_pow]
  omega

theorem transport_stage_eq (cfg : Config) (st : Stats) (buf : Packet) (l4 : Nat)
    (hu : UdpHeaderAt buf l4) :
    transport_stage cfg st buf l4 =
      if openspa_server_port cfg = 0 then (XDP_PASS, st)
      else if be16 buf (l4 + 2) ≠ openspa_server_port cfg then (XDP_PASS, st)
      else application_stage cfg st buf (l4 + 8) := by
  have hnn : ¬ ((be16 buf (l4 + 4) : Int) - 8 < 0) := by
    have := hu.2
    omega
  unfold transport_stage application_stage
  simp only [parse_udphdr_of buf l4 hu, if_neg hnn, bpf_ntohs_load16]

theorem application_stage_reject (cfg : Config) (st : Stats) (buf : Packet) (l5 : Nat)
    (h : buf.length < l5 + 8 ∨ buf.length < l5 + 8 + 42 ∨ (byteAt buf l5 &&& 0x70) >>> 4 ≠ 2) :
    application_stage cfg st buf l5 =
      (XDP_DROP, (xdp_openspa_stats_record_action st OSPA_STAT_ID_NOT_OPENSPA_PACKET).2) := by
  unfold application_stage parse_ospahdr
  simp only [SIZEOF_OSPAHDR]
  by_cases h8 : l5 + 8 > buf.length
  · simp [h8]
  · simp only [if_neg h8]
    rw [if_neg (show ¬ ((0 : Int) < 0) by decide)]
    have hp : potentially_ospa_packet buf (l5 + 8) l5 < 0 := by
      unfold potentially_ospa_packet
      simp only [OSPA_BODY_MIN_SIZE, OSPA_CTRL_VERSION_MASK, OSPA_CTRL_VERSION_OFFSET,
        version_bits_lt]
      by_cases h42 : (buf.length : Int) - ((l5 + 8 : Nat) : Int) < 42
      · rw [if_pos h42]; decide
      · rw [if_neg h42]
        have hv : (byteAt buf l5 &&& 0x70) >>> 4 ≠ 2 := by
          rcases h with h | h | h
          · omega
          · omega
          · exact h
        rw [if_pos hv]; decide
    rw [if_pos hp]

theorem application_stage_accept (cfg : Config) (st : Stats) (buf : Packet) (l5 : Nat)
    (hlen : l5 + 8 + 42 ≤ buf.length) (hv : (byteAt buf l5 &&& 0x70) >>> 4 = 2) :
    application_stage cfg st buf l5 =
      if adk_proof_valid cfg (some (be32 buf (l5 + 4))) ≤ 0 then
        (XDP_DROP, (xdp_openspa_stats_record_action st OSPA_STAT_ID_ADK_PROOF_INVALID).2)
      else
        (XDP_PASS, (xdp_openspa_stats_record_action st OSPA_STAT_ID_ADK_PROOF_VALID).2) := by
  have hp : ¬ potentially_ospa_packet buf (l5 + 8) l5 < 0 := by
    unfold potentially_ospa_packet
    simp only [OSPA_BODY_MIN_SIZE, OSPA_CTRL_VERSION_MASK, OSPA_CTRL_VERSION_OFFSET,
      version_bits_lt]
    rw [if_neg (by omega), if_neg (by simp [hv])]
    decide
  unfold application_stage parse_ospahdr
  simp only [SIZEOF_OSPAHDR]
  simp only [if_neg (show ¬ l5 + 8 > buf.length by omega)]
  rw [if_neg (show ¬ ((0 : Int) < 0) by decide), if_neg hp, bpf_ntohl_load32]

/-- Outcome of a frame that reaches proof validation, in terms of the validator. -/
theorem body_of_reaches (cfg : Config) (st : Stats) (buf : Packet) (l4 : Nat)
    (h : ReachesProofValidation cfg buf l4) :
    xdp_openspa_adk_body cfg st buf =
      if adk_proof_valid cfg (some (be32 buf (l4 + 12))) ≤ 0 then
        (XDP_DROP, (xdp_openspa_stats_record_action st OSPA_STAT_ID_ADK_PROOF_INVALID).2)
      else
        (XDP_PASS, (xdp_openspa_stats_record_action st OSPA_STAT_ID_ADK_PROOF_VALID).2) := by
  obtain ⟨hip, hu, ⟨hp0, hdst⟩, hlen, hv⟩ := h
  rw [body_of_udpOverIp cfg st buf l4 hip, transport_stage_eq cfg st buf l4 hu,
    if_neg hp0, if_neg (by simp [hdst]),
    application_stage_accept cfg st buf (l4 + 8) (by omega) hv]

theorem adk_proof_valid_zero (cfg : Config) : adk_proof_valid cfg (some 0) = -1 := by
  simp [adk_proof_valid]

theorem adk_proof_valid_match (cfg : Config) (p s1 s2 : Nat) (hp : p ≠ 0)
    (h1 : cfg CONFIG_MAP_IDX_ADK_PROOF_FIRST = some s1)
    (h2 : cfg CONFIG_MAP_IDX_ADK_PROOF_LAST = some s2) (hm : p = s1 ∨ p = s2) :
    adk_proof_valid cfg (some p) = 1 := by
  unfold CONFIG_MAP_IDX_ADK_PROOF_FIRST at h1
  unfold CONFIG_MAP_IDX_ADK_PROOF_LAST at h2
  simp only [adk_proof_valid, if_neg hp, CONFIG_MAP_IDX_ADK_PROOF_FIRST,
    CONFIG_MAP_IDX_ADK_PROOF_LAST, adk_proof_loop, h1, h2]
  rcases hm with hm | hm
  · simp [hm]
  · by_cases h : s1 = p <;> simp [h, hm]

theorem adk_proof_valid_mismatch (cfg : Config) (p : Nat)
    (h1 : cfg CONFIG_MAP_IDX_ADK_PROOF_FIRST ≠ some p)
    (h2 : cfg CONFIG_MAP_IDX_ADK_PROOF_LAST ≠ some p) :
    adk_proof_valid cfg (some p) ≤ 0 := by
  unfold CONFIG_MAP_IDX_ADK_PROOF_FIRST at h1
  unfold CONFIG_MAP_IDX_ADK_PROOF_LAST at h2
  simp only [adk_proof_valid, CONFIG_MAP_IDX_ADK_PROOF_FIRST, CONFIG_MAP_IDX_ADK_PROOF_LAST,
    adk_proof_loop]
  split
  · decide
  · cases e1 : cfg 1 with
    | none => simp
    | some v1 =>
      have hv1 : v1 ≠ p := fun hh => h1 (by rw [e1, hh])
      simp only [if_neg hv1]
      cases e2 : cfg 2 with
      | none => simp
      | some v2 =>
        have hv2 : v2 ≠ p := fun hh => h2 (by rw [e2, hh])
        simp [hv2]

theorem udpOverIp_of_udpFrame (buf : Packet) (l4 : Nat) (h : UdpFrame buf l4) :
    UdpOverIp buf l4 := by
  obtain ⟨k, ⟨he, hi⟩ | ⟨he, hi⟩⟩ := h
  · have hp := parse_ethhdr_of_frame buf k ETH_P_IP he (Or.inl (by decide))
    have hl : load16 buf (12 + 4 * k) = bpf_htons ETH_P_IP :=
      (load16_eq_htons_iff buf _ ETH_P_IP (by decide)).2 he.2.2.2
    refine ⟨parse_iphdr buf (14 + 4 * k), Or.inl ⟨by rw [hp, hl], by rw [hp]⟩, ?_, ?_⟩
    · rw [parse_iphdr_of buf _ _ _ hi]; rfl
    · rw [parse_iphdr_of buf _ _ _ hi]
  · have hp := parse_ethhdr_of_frame buf k ETH_P_IPV6 he (Or.inl (by decide))
    have hl : load16 buf (12 + 4 * k) = bpf_htons ETH_P_IPV6 :=
      (load16_eq_htons_iff buf _ ETH_P_IPV6 (by decide)).2 he.2.2.2
    refine ⟨parse_ip6hdr buf (14 + 4 * k), Or.inr ⟨by rw [hp, hl], by rw [hp]⟩, ?_, ?_⟩
    · rw [parse_ip6hdr_of buf _ _ _ hi]; rfl
    · rw [parse_ip6hdr_of buf _ _ _ hi]

theorem udpFrame_frameValid : UdpFrame frameValid 34 :=
  ⟨0, Or.inl ⟨by decide, by decide⟩⟩

/-! ## Parser outcomes determine the frame -/

theorem parse_ethhdr_short (buf : Packet) (h : buf.length < 14) :
    parse_ethhdr buf 0 = ⟨-1, 0, 0⟩ := by
  unfold parse_ethhdr parse_ethhdr_vlan
  simp only [SIZEOF_ETHHDR]
  rw [if_pos (by omega)]

/-- Every buffer of at least 14 bytes is an Ethernet header with some number
`k ≤ 2` of VLAN tags at which unwrapping stops, and the link parser returns the
EtherType found there. -/
theorem parse_ethhdr_shape (buf : Packet) (h : 14 ≤ buf.length) :
    ∃ k, EthFrame buf k (be16 buf (12 + 4 * k)) ∧
      parse_ethhdr buf 0 = ⟨(load16 buf (12 + 4 * k) : Nat), 14 + 4 * k, 0⟩ := by
  by_cases v0 : IsVlanType (be16 buf 12)
  · by_cases l1 : buf.length < 18
    · have hf : EthFrame buf 0 (be16 buf (12 + 4 * 0)) :=
        ⟨by decide, by omega, by intro i hi; omega, rfl⟩
      exact ⟨0, hf, parse_ethhdr_of_frame buf 0 _ hf (Or.inr (Or.inr (by omega)))⟩
    · by_cases v1 : IsVlanType (be16 buf 16)
      · by_cases l2 : buf.length < 22
        · have hf : EthFrame buf 1 (be16 buf (12 + 4 * 1)) := by
            refine ⟨by decide, by omega, ?_, rfl⟩
            intro i hi
            have hi0 : i = 0 := by omega
            rw [hi0]; exact v0
          exact ⟨1, hf, parse_ethhdr_of_frame buf 1 _ hf (Or.inr (Or.inr (by omega)))⟩
        · have hf : EthFrame buf 2 (be16 buf (12 + 4 * 2)) := by
            refine ⟨by decide, by omega, ?_, rfl⟩
            intro i hi
            have hi0 : i = 0 ∨ i = 1 := by omega
            rcases hi0 with hi0 | hi0
            · rw [hi0]; exact v0
            · rw [hi0]; exact v1
          exact ⟨2, hf, parse_ethhdr_of_frame buf 2 _ hf (Or.inr (Or.inl rfl))⟩
      · have hf : EthFrame buf 1 (be16 buf (12 + 4 * 1)) := by
          refine ⟨by decide, by omega, ?_, rfl⟩
          intro i hi
          have hi0 : i = 0 := by omega
          rw [hi0]; exact v0
        exact ⟨1, hf, parse_ethhdr_of_frame buf 1 _ hf (Or.inl v1)⟩
  · have hf : EthFrame buf 0 (be16 buf (12 + 4 * 0)) :=
      ⟨by decide, by omega, by intro i hi; omega, rfl⟩
    exact ⟨0, hf, parse_ethhdr_of_frame buf 0 _ hf (Or.inl v0)⟩

theorem parse_iphdr_inv (buf : Packet) (l3 proto : Nat)
    (h : (parse_iphdr buf l3).ret = (proto : Nat)) :
    Ipv4At buf l3 (parse_iphdr buf l3).pos proto := by
  unfold parse_iphdr at h ⊢
  simp only [SIZEOF_IPHDR] at h ⊢
  by_cases c1 : l3 + 20 > buf.length
  · rw [if_pos c1] at h; simp only at h; omega
  · rw [if_neg c1] at h ⊢
    by_cases c2 : byteAt buf l3 % 16 * 4 < 20
    · rw [if_pos c2] at h; simp only at h; omega
    · rw [if_neg c2] at h ⊢
      by_cases c3 : l3 + byteAt buf l3 % 16 * 4 > buf.length
      · rw [if_pos c3] at h; simp only at h; omega
      · rw [if_neg c3] at h ⊢
        simp only at h ⊢
        exact ⟨by omega, by omega, by omega, by omega, by omega⟩

theorem parse_ip6hdr_inv (buf : Packet) (l3 proto : Nat)
    (h : (parse_ip6hdr buf l3).ret = (proto : Nat)) :
    Ipv6At buf l3 (parse_ip6hdr buf l3).pos proto := by
  unfold parse_ip6hdr at h ⊢
  simp only [SIZEOF_IPV6HDR] at h ⊢
  by_cases c1 : l3 + 40 > buf.length
  · rw [if_pos c1] at h; simp only at h; omega
  · rw [if_neg c1] at h ⊢
    simp only at h ⊢
    exact ⟨by omega, rfl, by omega⟩

theorem udpFrame_of_udpOverIp (buf : Packet) (l4 : Nat) (h : UdpOverIp buf l4) :
    UdpFrame buf l4 := by
  obtain ⟨r, hr, hret, hpos⟩ := h
  have hlen : 14 ≤ buf.length := by
    by_contra hc
    have hs := parse_ethhdr_short buf (by omega)
    unfold NetworkParse at hr
    rcases hr with ⟨he, _⟩ | ⟨he, _⟩ <;> · rw [hs] at he; simp only at he; omega
  obtain ⟨k, hf, hp⟩ := parse_ethhdr_shape buf hlen
  unfold NetworkParse at hr
  rw [hp] at hr
  simp only at hr
  rcases hr with ⟨he, hr⟩ | ⟨he, hr⟩
  · have he2 : be16 buf (12 + 4 * k) = ETH_P_IP :=
      (load16_eq_htons_iff buf _ ETH_P_IP (by decide)).1 (by exact_mod_cast he)
    refine ⟨k, Or.inl ⟨by rw [← he2]; exact hf, ?_⟩⟩
    rw [← hpos, hr]
    apply parse_iphdr_inv
    rw [← hr, hret]; rfl
  · have he2 : be16 buf (12 + 4 * k) = ETH_P_IPV6 :=
      (load16_eq_htons_iff buf _ ETH_P_IPV6 (by decide)).1 (by exact_mod_cast he)
    refine ⟨k, Or.inr ⟨by rw [← he2]; exact hf, ?_⟩⟩
    rw [← hpos, hr]
    apply parse_ip6hdr_inv
    rw [← hr, hret]; rfl

/-- The byte-level description `UdpFrame` holds exactly for the frames whose
network header parses with transport protocol UDP. -/
theorem udpFrame_iff_udpOverIp (buf : Packet) (l4 : Nat) :
    UdpFrame buf l4 ↔ UdpOverIp buf l4 :=
  ⟨udpOverIp_of_udpFrame buf l4, udpFrame_of_udpOverIp buf l4⟩

theorem udpOverIp_frameInvalid : UdpOverIp frameInvalid 34 :=
  udpOverIp_of_udpFrame _ _ ⟨0, Or.inl ⟨by decide, by decide⟩⟩

theorem udpOverIp_frameZero : UdpOverIp frameZero 34 :=
  udpOverIp_of_udpFrame _ _ ⟨0, Or.inl ⟨by decide, by decide⟩⟩

theorem udpOverIp_frameOtherPort : UdpOverIp frameOtherPort 34 :=
  udpOverIp_of_udpFrame _ _ ⟨0, Or.inl ⟨by decide, by decide⟩⟩

theorem udpOverIp_frameShortApp : UdpOverIp frameShortApp 34 :=
  udpOverIp_of_udpFrame _ _ ⟨0, Or.inl ⟨by decide, by decide⟩⟩

theorem udpOverIp_frameShortUdp : UdpOverIp frameShortUdp 34 :=
  udpOverIp_of_udpFrame _ _ ⟨0, Or.inl ⟨by decide, by decide⟩⟩

theorem adk_of_body (cfg : Config) (st st1 : Stats) (buf : Packet) (a : Nat)
    (hb : xdp_openspa_adk_body cfg st buf = (a, st1)) :
    (xdp_openspa_adk cfg st buf).1 = a ∧
      ∀ id, (xdp_openspa_adk cfg st buf).2.event id = st1.event id := by
  refine ⟨by rw [adk_action, hb], fun id => by rw [adk_event, hb]⟩

theorem transport_stage_not_aborted (cfg : Config) (st : Stats) (buf : Packet) (l4 : Nat)
    (h : ¬ (parse_udphdr buf l4).ret < 0) :
    (transport_stage cfg st buf l4).1 ≠ XDP_ABORTED := by
  unfold transport_stage
  simp only [if_neg h]
  split_ifs <;> simp [XDP_PASS, XDP_DROP, XDP_ABORTED]

/-- A network header that fails to parse is passed up the stack, for any
configuration. -/
theorem network_failure_passes (cfg : Config) (st : Stats) (buf : Packet) (r : ParseResult)
    (h : NetworkParse buf r) (hr : r.ret < 0) :
    (xdp_openspa_adk cfg st buf).1 = XDP_PASS := by
  have hb : xdp_openspa_adk_body cfg st buf = (XDP_PASS, st) := by
    rw [body_of_networkParse cfg st buf r h]
    unfold network_stage
    rw [if_pos (by unfold IPPROTO_UDP; omega)]
  exact (adk_of_body cfg st st buf _ hb).1

/-! ## The decision pipeline: contract -/

/-- Claim C1.  A frame made of an Ethernet header, at most two VLAN tags and a
well-formed IPv4 or IPv6 header carrying UDP, whose UDP header (at `l4`) declares
a length of at least 8 and is addressed to the non-zero configured port, whose
application header has version bits 2 with at least 42 bytes after it, and whose
big-endian proof is non-zero and equal to config slot 1 or config slot 2, is
passed: the action is `XDP_PASS`, the proof-valid counter is incremented by one
(as a 64-bit counter) and the other two event counters keep their values. -/
theorem C1_valid_proof_passes (cfg : Config) (st : Stats) (buf : Packet) (l4 s1 s2 : Nat)
    (hf : UdpFrame buf l4) (hu : UdpHeaderAt buf l4) (hs : ToService cfg buf l4)
    (hp : Plausible buf l4) (hnz : be32 buf (l4 + 12) ≠ 0)
    (h1 : cfg CONFIG_MAP_IDX_ADK_PROOF_FIRST = some s1)
    (h2 : cfg CONFIG_MAP_IDX_ADK_PROOF_LAST = some s2)
    (hm : be32 buf (l4 + 12) = s1 ∨ be32 buf (l4 + 12) = s2) :
    (xdp_openspa_adk cfg st buf).1 = XDP_PASS ∧
      (xdp_openspa_adk cfg st buf).2.event OSPA_STAT_ID_ADK_PROOF_VALID =
        (st.event OSPA_STAT_ID_ADK_PROOF_VALID + 1) % U64_MOD ∧
      (xdp_openspa_adk cfg st buf).2.event OSPA_STAT_ID_ADK_PROOF_INVALID =
        st.event OSPA_STAT_ID_ADK_PROOF_INVALID ∧
      (xdp_openspa_adk cfg st buf).2.event OSPA_STAT_ID_NOT_OPENSPA_PACKET =
        st.event OSPA_STAT_ID_NOT_OPENSPA_PACKET := by
  have hr : ReachesProofValidation cfg buf l4 := ⟨udpOverIp_of_udpFrame buf l4 hf, hu, hs, hp⟩
  have hv := adk_proof_valid_match cfg _ s1 s2 hnz h1 h2 hm
  have hb := body_of_reaches cfg st buf l4 hr
  rw [hv, if_neg (by decide)] at hb
  refine ⟨by rw [adk_action, hb], ?_, ?_, ?_⟩
  · rw [adk_event, hb]; exact record_event_same st _ (by decide)
  · rw [adk_event, hb]; exact record_event_other st _ _ (by decide) (by decide)
  · rw [adk_event, hb]; exact record_event_other st _ _ (by decide) (by decide)

/-- Witness for C1: port 12345, allow-list `0xAABBCCDD`, proof `0xAABBCCDD`. -/
theorem C1_valid_proof_passes_witness :
    UdpFrame frameValid 34 ∧ be32 frameValid (34 + 12) = 0xAABBCCDD ∧
      openspa_server_port cfgExample = 12345 ∧
      (xdp_openspa_adk cfgExample stSome frameValid).1 = XDP_PASS ∧
      (xdp_openspa_adk cfgExample stSome frameValid).2.event OSPA_STAT_ID_ADK_PROOF_VALID =
        (stSome.event OSPA_STAT_ID_ADK_PROOF_VALID + 1) % U64_MOD ∧
      (xdp_openspa_adk cfgExample stSome frameValid).2.event OSPA_STAT_ID_ADK_PROOF_INVALID =
        stSome.event OSPA_STAT_ID_ADK_PROOF_INVALID ∧
      (xdp_openspa_adk cfgExample stSome frameValid).2.event OSPA_STAT_ID_NOT_OPENSPA_PACKET =
        stSome.event OSPA_STAT_ID_NOT_OPENSPA_PACKET :=
  ⟨udpFrame_frameValid, by decide, by decide,
    C1_valid_proof_passes cfgExample stSome frameValid 34 0xAABBCCDD 0 udpFrame_frameValid
      (by decide) (by decide) (by decide) (by decide) rfl rfl (by decide)⟩

/-- Claim C2.  A frame that reaches proof validation (UDP to the non-zero
configured port, application header present, version bits 2, at least 42 bytes
after the header) and whose big-endian proof is non-zero and differs from config
slot 1 and from config slot 2 is dropped: the action is `XDP_DROP`, the
proof-invalid counter is incremented by one (as a 64-bit counter) and the other
two event counters keep their values. -/
theorem C2_unknown_proof_dropped (cfg : Config) (st : Stats) (buf : Packet) (l4 : Nat)
    (hr : ReachesProofValidation cfg buf l4) (_hnz : be32 buf (l4 + 12) ≠ 0)
    (h1 : cfg CONFIG_MAP_IDX_ADK_PROOF_FIRST ≠ some (be32 buf (l4 + 12)))
    (h2 : cfg CONFIG_MAP_IDX_ADK_PROOF_LAST ≠ some (be32 buf (l4 + 12))) :
    (xdp_openspa_adk cfg st buf).1 = XDP_DROP ∧
      (xdp_openspa_adk cfg st buf).2.event OSPA_STAT_ID_ADK_PROOF_INVALID =
        (st.event OSPA_STAT_ID_ADK_PROOF_INVALID + 1) % U64_MOD ∧
      (xdp_openspa_adk cfg st buf).2.event OSPA_STAT_ID_ADK_PROOF_VALID =
        st.event OSPA_STAT_ID_ADK_PROOF_VALID ∧
      (xdp_openspa_adk cfg st buf).2.event OSPA_STAT_ID_NOT_OPENSPA_PACKET =
        st.event OSPA_STAT_ID_NOT_OPENSPA_PACKET := by
  have hb := body_of_reaches cfg st buf l4 hr
  rw [if_pos (adk_proof_valid_mismatch cfg _ h1 h2)] at hb
  obtain ⟨ha, he⟩ := adk_of_body cfg st _ buf _ hb
  refine ⟨ha, ?_, ?_, ?_⟩
  · rw [he]; exact record_event_same st _ (by decide)
  · rw [he]; exact record_event_other st _ _ (by decide) (by decide)
  · rw [he]; exact record_event_other st _ _ (by decide) (by decide)

/-- Witness for C2: allow-list `0xAABBCCDD`, proof `0x11111111`. -/
theorem C2_unknown_proof_dropped_witness :
    be32 frameInvalid (34 + 12) = 0x11111111 ∧
      (xdp_openspa_adk cfgExample stSome frameInvalid).1 = XDP_DROP ∧
      (xdp_openspa_adk cfgExample stSome frameInvalid).2.event OSPA_STAT_ID_ADK_PROOF_INVALID =
        (stSome.event OSPA_STAT_ID_ADK_PROOF_INVALID + 1) % U64_MOD ∧
      (xdp_openspa_adk cfgExample stSome frameInvalid).2.event OSPA_STAT_ID_ADK_PROOF_VALID =
        stSome.event OSPA_STAT_ID_ADK_PROOF_VALID ∧
      (xdp_openspa_adk cfgExample stSome frameInvalid).2.event OSPA_STAT_ID_NOT_OPENSPA_PACKET =
        stSome.event OSPA_STAT_ID_NOT_OPENSPA_PACKET :=
  ⟨by decide,
    C2_unknown_proof_dropped cfgExample stSome frameInvalid 34
      ⟨udpOverIp_frameInvalid, by decide, by decide, by decide⟩ (by decide) (by decide)
      (by decide)⟩

/-- Claim C3.  A frame that passes the plausibility filter and whose proof field
is 0 is dropped, whatever the configuration table holds in its allow-list slots
(zero included): the action is `XDP_DROP`, the proof-invalid counter is
incremented by one (as a 64-bit counter), and the proof-valid and not-this-scheme
counters keep their values, so a zero proof is never counted as valid. -/
theorem C3_zero_proof_dropped (cfg : Config) (st : Stats) (buf : Packet) (l4 : Nat)
    (hr : ReachesProofValidation cfg buf l4) (hz : be32 buf (l4 + 12) = 0) :
    (xdp_openspa_adk cfg st buf).1 = XDP_DROP ∧
      (xdp_openspa_adk cfg st buf).2.event OSPA_STAT_ID_ADK_PROOF_INVALID =
        (st.event OSPA_STAT_ID_ADK_PROOF_INVALID + 1) % U64_MOD ∧
      (xdp_openspa_adk cfg st buf).2.event OSPA_STAT_ID_ADK_PROOF_VALID =
        st.event OSPA_STAT_ID_ADK_PROOF_VALID ∧
      (xdp_openspa_adk cfg st buf).2.event OSPA_STAT_ID_NOT_OPENSPA_PACKET =
        st.event OSPA_STAT_ID_NOT_OPENSPA_PACKET := by
  have hb := body_of_reaches cfg st buf l4 hr
  rw [hz, adk_proof_valid_zero, if_pos (by decide)] at hb
  obtain ⟨ha, he⟩ := adk_of_body cfg st _ buf _ hb
  refine ⟨ha, ?_, ?_, ?_⟩
  · rw [he]; exact record_event_same st _ (by decide)
  · rw [he]; exact record_event_other st _ _ (by decide) (by decide)
  · rw [he]; exact record_event_other st _ _ (by decide) (by decide)

/-- Witness for C3: proof 0 against a table whose second allow-list slot holds 0. -/
theorem C3_zero_proof_dropped_witness :
    be32 frameZero (34 + 12) = 0 ∧ cfgExample CONFIG_MAP_IDX_ADK_PROOF_LAST = some 0 ∧
      (xdp_openspa_adk cfgExample stSome frameZero).1 = XDP_DROP ∧
      (xdp_openspa_adk cfgExample stSome frameZero).2.event OSPA_STAT_ID_ADK_PROOF_INVALID =
        (stSome.event OSPA_STAT_ID_ADK_PROOF_INVALID + 1) % U64_MOD ∧
      (xdp_openspa_adk cfgExample stSome frameZero).2.event OSPA_STAT_ID_ADK_PROOF_VALID =
        stSome.event OSPA_STAT_ID_ADK_PROOF_VALID ∧
      (xdp_openspa_adk cfgExample stSome frameZero).2.event OSPA_STAT_ID_NOT_OPENSPA_PACKET =
        stSome.event OSPA_STAT_ID_NOT_OPENSPA_PACKET :=
  ⟨by decide, by decide,
    C3_zero_proof_dropped cfgExample stSome frameZero 34
      ⟨udpOverIp_frameZero, by decide, by decide, by decide⟩ (by decide)⟩

/-- Claim C4.  For a UDP frame addressed to the non-zero configured port whose
UDP header (at `l4`) parses: if fewer than 8 bytes remain after the UDP header,
or fewer than 42 bytes remain after the 8-byte application header, or the version
bits differ from 2, the action is `XDP_DROP`, the not-this-scheme counter is
incremented by one (as a 64-bit counter) and the proof-invalid and proof-valid
counters keep their values; the statement holds for every proof field and every
allow-list. -/
theorem C4_not_openspa_dropped (cfg : Config) (st : Stats) (buf : Packet) (l4 : Nat)
    (hip : UdpOverIp buf l4) (hu : UdpHeaderAt buf l4) (hs : ToService cfg buf l4)
    (hbad : buf.length < l4 + 8 + 8 ∨ buf.length < l4 + 8 + 8 + 42 ∨
      (byteAt buf (l4 + 8) &&& 0x70) >>> 4 ≠ 2) :
    (xdp_openspa_adk cfg st buf).1 = XDP_DROP ∧
      (xdp_openspa_adk cfg st buf).2.event OSPA_STAT_ID_NOT_OPENSPA_PACKET =
        (st.event OSPA_STAT_ID_NOT_OPENSPA_PACKET + 1) % U64_MOD ∧
      (xdp_openspa_adk cfg st buf).2.event OSPA_STAT_ID_ADK_PROOF_INVALID =
        st.event OSPA_STAT_ID_ADK_PROOF_INVALID ∧
      (xdp_openspa_adk cfg st buf).2.event OSPA_STAT_ID_ADK_PROOF_VALID =
        st.event OSPA_STAT_ID_ADK_PROOF_VALID := by
  have hb : xdp_openspa_adk_body cfg st buf =
      (XDP_DROP, (xdp_openspa_stats_record_action st OSPA_STAT_ID_NOT_OPENSPA_PACKET).2) := by
    rw [body_of_udpOverIp cfg st buf l4 hip, transport_stage_eq cfg st buf l4 hu,
      if_neg hs.1, if_neg (by simp [hs.2]), application_stage_reject cfg st buf (l4 + 8) hbad]
  obtain ⟨ha, he⟩ := adk_of_body cfg st _ buf _ hb
  refine ⟨ha, ?_, ?_, ?_⟩
  · rw [he]; exact record_event_same st _ (by decide)
  · rw [he]; exact record_event_other st _ _ (by decide) (by decide)
  · rw [he]; exact record_event_other st _ _ (by decide) (by decide)

/-- Witness for C4: a datagram to port 12345 with four bytes after the UDP header. -/
theorem C4_not_openspa_dropped_witness :
    frameShortApp.length < 34 + 8 + 8 ∧
      (xdp_openspa_adk cfgExample stSome frameShortApp).1 = XDP_DROP ∧
      (xdp_openspa_adk cfgExample stSome frameShortApp).2.event OSPA_STAT_ID_NOT_OPENSPA_PACKET =
        (stSome.event OSPA_STAT_ID_NOT_OPENSPA_PACKET + 1) % U64_MOD ∧
      (xdp_openspa_adk cfgExample stSome frameShortApp).2.event OSPA_STAT_ID_ADK_PROOF_INVALID =
        stSome.event OSPA_STAT_ID_ADK_PROOF_INVALID ∧
      (xdp_openspa_adk cfgExample stSome frameShortApp).2.event OSPA_STAT_ID_ADK_PROOF_VALID =
        stSome.event OSPA_STAT_ID_ADK_PROOF_VALID :=
  ⟨by decide,
    C4_not_openspa_dropped cfgExample stSome frameShortApp 34 udpOverIp_frameShortApp
      (by decide) (by decide) (Or.inl (by decide))⟩

/-- Claim C5.  A frame whose link header parses to EtherType IPv4 or IPv6 and
whose network header parses successfully with a transport protocol other than
UDP, and likewise a frame whose link header parses to a final EtherType that is
neither IPv4 nor IPv6, is passed: the action is `XDP_PASS` and no event counter
changes. -/
theorem C5_out_of_scope_passes (cfg : Config) (st : Stats) (buf : Packet)
    (h : (∃ r, NetworkParse buf r ∧ 0 ≤ r.ret ∧ r.ret ≠ IPPROTO_UDP) ∨
      (0 ≤ (parse_ethhdr buf 0).ret ∧ (parse_ethhdr buf 0).ret ≠ (bpf_htons ETH_P_IP : Nat) ∧
        (parse_ethhdr buf 0).ret ≠ (bpf_htons ETH_P_IPV6 : Nat))) :
    (xdp_openspa_adk cfg st buf).1 = XDP_PASS ∧
      ∀ id, (xdp_openspa_adk cfg st buf).2.event id = st.event id := by
  have hb : xdp_openspa_adk_body cfg st buf = (XDP_PASS, st) := by
    rcases h with ⟨r, hr, _, hne⟩ | ⟨h0, h1, h2⟩
    · rw [body_of_networkParse cfg st buf r hr]
      unfold network_stage
      rw [if_pos hne]
    · rw [body_eq, if_neg (by omega), if_neg h1, if_neg h2]
  exact adk_of_body cfg st st buf _ hb

/-- Witness for C5: an IPv4 frame carrying TCP. -/
theorem C5_out_of_scope_passes_witness :
    (parse_ethhdr frameTcp 0).ret = (bpf_htons ETH_P_IP : Nat) ∧
      (parse_iphdr frameTcp 14).ret = 6 ∧
      (xdp_openspa_adk cfgExample stSome frameTcp).1 = XDP_PASS ∧
      ∀ id, (xdp_openspa_adk cfgExample stSome frameTcp).2.event id = stSome.event id :=
  ⟨by decide, by decide,
    C5_out_of_scope_passes cfgExample stSome frameTcp
      (Or.inl ⟨parse_iphdr frameTcp 14, Or.inl ⟨by decide, by decide⟩, by decide, by decide⟩)⟩

/-- Claim C6.  For a UDP frame whose UDP header (at `l4`) parses: if the
configured port is unset (`openspa_server_port` is 0, which covers a failed lookup
and a stored 0), or the destination port read in host order differs from the
configured port, the action is `XDP_PASS` and no event counter changes; the
statement holds for every content of the bytes after the UDP header and of the
allow-list slots. -/
theorem C6_other_port_passes (cfg : Config) (st : Stats) (buf : Packet) (l4 : Nat)
    (hip : UdpOverIp buf l4) (hu : UdpHeaderAt buf l4)
    (hp : openspa_server_port cfg = 0 ∨ be16 buf (l4 + 2) ≠ openspa_server_port cfg) :
    (xdp_openspa_adk cfg st buf).1 = XDP_PASS ∧
      ∀ id, (xdp_openspa_adk cfg st buf).2.event id = st.event id := by
  have hb : xdp_openspa_adk_body cfg st buf = (XDP_PASS, st) := by
    rw [body_of_udpOverIp cfg st buf l4 hip, transport_stage_eq cfg st buf l4 hu]
    by_cases h0 : openspa_server_port cfg = 0
    · rw [if_pos h0]
    · rw [if_neg h0, if_pos (hp.resolve_left h0)]
  exact adk_of_body cfg st st buf _ hb

/-- Witness for C6: configured port 12345, destination port 9999. -/
theorem C6_other_port_passes_witness :
    openspa_server_port cfgExample = 12345 ∧ be16 frameOtherPort (34 + 2) = 9999 ∧
      (xdp_openspa_adk cfgExample stSome frameOtherPort).1 = XDP_PASS ∧
      ∀ id, (xdp_openspa_adk cfgExample stSome frameOtherPort).2.event id = stSome.event id :=
  ⟨by decide, by decide,
    C6_other_port_passes cfgExample stSome frameOtherPort 34 udpOverIp_frameOtherPort
      (by decide) (Or.inr (by decide))⟩

/-- Claim C7, evaluated on the code.  The frame `frameNoIp` has a link header that
parses to EtherType IPv4 and no byte after it, so `parse_iphdr` fails with `-1`;
`xdp_openspa_adk` returns `XDP_PASS` on it, not `XDP_ABORTED`. -/
theorem C7_network_failure_not_aborted :
    (parse_ethhdr frameNoIp 0).ret = (bpf_htons ETH_P_IP : Nat) ∧
      (parse_iphdr frameNoIp (parse_ethhdr frameNoIp 0).pos).ret = -1 ∧
      (xdp_openspa_adk cfgExample stSome frameNoIp).1 = XDP_PASS ∧
      (xdp_openspa_adk cfgExample stSome frameNoIp).1 ≠ XDP_ABORTED := by
  decide

/-- Claim C8.  A packet buffer shorter than the 14-byte link header, the empty
buffer included, is aborted under every configuration: the action is
`XDP_ABORTED` and no event counter changes. -/
theorem C8_short_frame_aborted (cfg : Config) (st : Stats) (buf : Packet)
    (h : buf.length < 14) :
    (xdp_openspa_adk cfg st buf).1 = XDP_ABORTED ∧
      ∀ id, (xdp_openspa_adk cfg st buf).2.event id = st.event id := by
  have hb : xdp_openspa_adk_body cfg st buf = (XDP_ABORTED, st) := by
    have hneg : (parse_ethhdr buf 0).ret < 0 := by
      unfold parse_ethhdr parse_ethhdr_vlan
      simp only [SIZEOF_ETHHDR]
      rw [if_pos (by omega)]
      decide
    rw [body_eq, if_pos hneg]
  exact adk_of_body cfg st st buf _ hb

/-- Witness for C8: the empty buffer. -/
theorem C8_short_frame_aborted_witness :
    (xdp_openspa_adk cfgExample stSome []).1 = XDP_ABORTED ∧
      ∀ id, (xdp_openspa_adk cfgExample stSome []).2.event id = stSome.event id :=
  C8_short_frame_aborted cfgExample stSome [] (by decide)

/-- Claim C9.  For a frame whose network header parses with transport protocol
UDP, leaving the cursor at `l4`, the action is `XDP_ABORTED` exactly when the
transport parse fails, that is when fewer than 8 bytes remain after the network
header or the big-endian declared length of the UDP header is below 8; this holds
for every configuration and destination port. -/
theorem C9_abort_iff_udp_parse_fails (cfg : Config) (st : Stats) (buf : Packet) (l4 : Nat)
    (hip : UdpOverIp buf l4) :
    ((xdp_openspa_adk cfg st buf).1 = XDP_ABORTED ↔
        (buf.length < l4 + 8 ∨ be16 buf (l4 + 4) < 8)) ∧
      ((parse_udphdr buf l4).ret < 0 ↔ (buf.length < l4 + 8 ∨ be16 buf (l4 + 4) < 8)) := by
  refine ⟨?_, parse_udphdr_ret_neg_iff buf l4⟩
  rw [adk_action, body_of_udpOverIp cfg st buf l4 hip, ← parse_udphdr_ret_neg_iff]
  constructor
  · intro ha
    by_contra hn
    exact transport_stage_not_aborted cfg st buf l4 hn ha
  · intro hneg
    unfold transport_stage
    simp only [if_pos hneg]

/-- Witness for C9: a frame cut four bytes into the UDP header is aborted. -/
theorem C9_abort_iff_udp_parse_fails_witness :
    frameShortUdp.length < 34 + 8 ∧
      (xdp_openspa_adk cfgExample stSome frameShortUdp).1 = XDP_ABORTED :=
  ⟨by decide,
    (C9_abort_iff_udp_parse_fails cfgExample stSome frameShortUdp 34
      udpOverIp_frameShortUdp).1.2 (Or.inl (by decide))⟩

/-- Claim C10.  One call of `xdp_openspa_adk` returns an action among
`XDP_ABORTED`, `XDP_DROP`, `XDP_PASS`; the returned value is the action chosen by
the body of the pipeline, which is below `XDP_ACTION_MAX` and whose slot the
lookup finds, so neither early return of `xdp_stats_record_action` is taken; the
action-counter entry of that action gains one packet and the buffer length in
bytes (as 64-bit counters), and every other action-counter entry is unchanged.
This holds on every path, for every buffer, configuration and counter state. -/
theorem C10_finalize_counts_action (cfg : Config) (st : Stats) (buf : Packet) :
    ((xdp_openspa_adk cfg st buf).1 = XDP_ABORTED ∨ (xdp_openspa_adk cfg st buf).1 = XDP_DROP ∨
        (xdp_openspa_adk cfg st buf).1 = XDP_PASS) ∧
      (xdp_openspa_adk cfg st buf).1 = (xdp_openspa_adk_body cfg st buf).1 ∧
      ¬ (xdp_openspa_adk_body cfg st buf).1 ≥ XDP_ACTION_MAX ∧
      array_lookup XDP_ACTION_MAX (xdp_openspa_adk_body cfg st buf).2.xdp_stats_map
          (xdp_openspa_adk_body cfg st buf).1 ≠ none ∧
      (xdp_openspa_adk cfg st buf).2.packets (xdp_openspa_adk cfg st buf).1 =
        (st.packets (xdp_openspa_adk cfg st buf).1 + 1) % U64_MOD ∧
      (xdp_openspa_adk cfg st buf).2.bytes (xdp_openspa_adk cfg st buf).1 =
        (st.bytes (xdp_openspa_adk cfg st buf).1 + buf.length) % U64_MOD ∧
      ∀ b, b ≠ (xdp_openspa_adk cfg st buf).1 →
        (xdp_openspa_adk cfg st buf).2.xdp_stats_map b = st.xdp_stats_map b := by
  have hlt := body_action_lt cfg st buf
  have hst := body_stats cfg st buf
  have ha := adk_action cfg st buf
  refine ⟨?_, ha, by omega, ?_, ?_, ?_, ?_⟩
  · rw [ha]; exact body_action_cases cfg st buf
  · unfold array_lookup
    rw [if_pos hlt]
    exact Option.some_ne_none _
  · rw [ha]
    unfold xdp_openspa_adk
    simp only [record_action_of_lt _ _ _ hlt, Stats.packets, hst, Function.update_same]
  · rw [ha]
    unfold xdp_openspa_adk
    simp only [record_action_of_lt _ _ _ hlt, Stats.bytes, hst, Function.update_same]
  · intro b hb
    rw [ha] at hb
    unfold xdp_openspa_adk
    simp only [record_action_of_lt _ _ _ hlt, hst]
    exact Function.update_noteq hb _ _

/-! ## Parsers and validator: behaviour -/

theorem adk_proof_valid_eq_ref (c : Config) (proof : Nat) :
    adk_proof_valid c (some proof) = adk_proof_valid_ref c proof := by
  simp only [adk_proof_valid, adk_proof_valid_ref, CONFIG_MAP_IDX_ADK_PROOF_FIRST,
    CONFIG_MAP_IDX_ADK_PROOF_LAST, adk_proof_loop]

theorem adk_proof_valid_range (c : Config) (proof : Nat) :
    adk_proof_valid c (some proof) = -1 ∨ adk_proof_valid c (some proof) = 0 ∨
      adk_proof_valid c (some proof) = 1 := by
  simp only [adk_proof_valid, CONFIG_MAP_IDX_ADK_PROOF_FIRST,
    CONFIG_MAP_IDX_ADK_PROOF_LAST, adk_proof_loop]
  split
  · exact Or.inl rfl
  · cases c 1 with
    | none => exact Or.inr (Or.inl rfl)
    | some v1 =>
      simp only
      split
      · exact Or.inr (Or.inr rfl)
      · cases c 2 with
        | none => exact Or.inr (Or.inl rfl)
        | some v2 =>
          simp only
          split
          · exact Or.inr (Or.inr rfl)
          · exact Or.inl rfl

theorem adk_proof_valid_lookup_error (c : Config) (proof : Nat) (hnz : proof ≠ 0)
    (hfail : c 1 = none ∨ (∃ s1, c 1 = some s1 ∧ s1 ≠ proof ∧ c 2 = none)) :
    adk_proof_valid c (some proof) = 0 := by
  simp only [adk_proof_valid, if_neg hnz, CONFIG_MAP_IDX_ADK_PROOF_FIRST,
    CONFIG_MAP_IDX_ADK_PROOF_LAST, adk_proof_loop]
  rcases hfail with h1 | ⟨s1, h1, hne, h2⟩
  · simp only [h1]
  · simp only [h1, if_neg hne, h2]

/-- Counterexample to claim C11 as stated.  In `frameUdpOverrun` the UDP header at
offset 34 declares a total length of 65535 and is the last thing in the buffer:
`parse_udphdr` succeeds and returns payload length 65527 although no byte remains
after the header. -/
theorem C11_declared_length_overrun_accepted :
    (parse_udphdr frameUdpOverrun 34).ret = 65527 ∧
      0 ≤ (parse_udphdr frameUdpOverrun 34).ret ∧
      (frameUdpOverrun.length : Int) - ((parse_udphdr frameUdpOverrun 34).pos : Int) = 0 ∧
      ¬ (parse_udphdr frameUdpOverrun 34).ret ≤
        (frameUdpOverrun.length : Int) - ((parse_udphdr frameUdpOverrun 34).pos : Int) := by
  decide

/-- Claim C11, amended.  For every buffer and cursor, `parse_udphdr` succeeds
exactly when 8 bytes remain for the header and the declared total length is at
least 8; on success it returns the declared total length minus 8, a value between
0 and 65527, and leaves the cursor right after the header.  The declared length is
not compared with the bytes that remain in the buffer. -/
theorem C11_parse_udphdr_length (buf : Packet) (nh : Nat) :
    (0 ≤ (parse_udphdr buf nh).ret ↔ (nh + 8 ≤ buf.length ∧ 8 ≤ be16 buf (nh + 4))) ∧
      (0 ≤ (parse_udphdr buf nh).ret →
        (parse_udphdr buf nh).ret = (be16 buf (nh + 4) : Int) - 8 ∧
          (parse_udphdr buf nh).ret ≤ 65527 ∧ (parse_udphdr buf nh).pos = nh + 8) := by
  have hneg := parse_udphdr_ret_neg_iff buf nh
  have hiff : 0 ≤ (parse_udphdr buf nh).ret ↔ (nh + 8 ≤ buf.length ∧ 8 ≤ be16 buf (nh + 4)) := by
    constructor
    · intro h
      by_contra hc
      have : (parse_udphdr buf nh).ret < 0 := hneg.2 (by omega)
      omega
    · intro h
      by_contra hc
      have := hneg.1 (by omega)
      omega
  refine ⟨hiff, fun h => ?_⟩
  have hu : UdpHeaderAt buf nh := hiff.1 h
  rw [parse_udphdr_of buf nh hu]
  have hlt := be16_lt buf (nh + 4)
  refine ⟨rfl, ?_, rfl⟩
  simp only
  omega

/-- Witness for C11: the overrunning header parses, with the amended bounds. -/
theorem C11_parse_udphdr_length_witness :
    (parse_udphdr frameUdpOverrun 34).ret = (be16 frameUdpOverrun (34 + 4) : Int) - 8 ∧
      (parse_udphdr frameUdpOverrun 34).ret ≤ 65527 ∧
      (parse_udphdr frameUdpOverrun 34).pos = 34 + 8 :=
  (C11_parse_udphdr_length frameUdpOverrun 34).2 (by decide)

/-- Claim C12.  For every proof and configuration table `adk_proof_valid` equals
the reference `adk_proof_valid_ref`: `-1` for proof 0, otherwise slots 1 and 2 are
examined in that order with exact equality, `1` at the first equal slot and `-1`
when both were read without a match.  When both lookups succeed the result is `1`
exactly when the proof is non-zero and equals slot 1 or slot 2, and otherwise
`-1`.  The result does not depend on any slot other than 1 and 2, so slot 0 (the
port) is never treated as a proof. -/
theorem C12_adk_proof_valid_reference (cfg : Config) (proof : Nat) :
    adk_proof_valid cfg (some proof) = adk_proof_valid_ref cfg proof ∧
      (∀ s1 s2, cfg 1 = some s1 → cfg 2 = some s2 →
        ((adk_proof_valid cfg (some proof) = 1 ↔ (proof ≠ 0 ∧ (proof = s1 ∨ proof = s2))) ∧
          (adk_proof_valid cfg (some proof) ≠ 1 → adk_proof_valid cfg (some proof) = -1))) ∧
      (∀ cfg1 : Config, cfg1 1 = cfg 1 → cfg1 2 = cfg 2 →
        adk_proof_valid cfg1 (some proof) = adk_proof_valid cfg (some proof)) := by
  have href := adk_proof_valid_eq_ref
  refine ⟨href cfg proof, ?_, ?_⟩
  · intro s1 s2 h1 h2
    rw [href cfg proof]
    simp only [adk_proof_valid_ref, h1, h2]
    by_cases hp : proof = 0
    · simp [hp]
    · by_cases e1 : s1 = proof
      · simp [hp, e1]
      · by_cases e2 : s2 = proof
        · simp [hp, e1, e2]
        · have e1n : ¬ proof = s1 := fun h => e1 h.symm
          have e2n : ¬ proof = s2 := fun h => e2 h.symm
          simp [hp, e1, e2, e1n, e2n]
  · intro cfg1 h1 h2
    rw [href cfg proof, href cfg1 proof]
    simp only [adk_proof_valid_ref, h1, h2]

/-- Claim C13.  For a frame that reaches proof validation with a non-zero proof,
if the lookup of an allow-list slot fails before an earlier slot matched (slot 1
unreadable, or slot 1 different from the proof and slot 2 unreadable), then
`adk_proof_valid` returns lookup-error `0` and the pipeline returns `XDP_DROP`,
increments proof-invalid by one (as a 64-bit counter) and leaves the other event
counters alone, as for an explicit mismatch.  For every frame that reaches proof
validation the pipeline returns `XDP_PASS` exactly when `adk_proof_valid` returns
`1`, and whenever it returns something else the proof-valid counter keeps its
value. -/
theorem C13_lookup_error_fails_closed (cfg : Config) (st : Stats) (buf : Packet) (l4 : Nat)
    (hr : ReachesProofValidation cfg buf l4) :
    (be32 buf (l4 + 12) ≠ 0 →
      (cfg CONFIG_MAP_IDX_ADK_PROOF_FIRST = none ∨
        (∃ s1, cfg CONFIG_MAP_IDX_ADK_PROOF_FIRST = some s1 ∧ s1 ≠ be32 buf (l4 + 12) ∧
          cfg CONFIG_MAP_IDX_ADK_PROOF_LAST = none)) →
      adk_proof_valid cfg (some (be32 buf (l4 + 12))) = 0 ∧
        (xdp_openspa_adk cfg st buf).1 = XDP_DROP ∧
        (xdp_openspa_adk cfg st buf).2.event OSPA_STAT_ID_ADK_PROOF_INVALID =
          (st.event OSPA_STAT_ID_ADK_PROOF_INVALID + 1) % U64_MOD ∧
        (xdp_openspa_adk cfg st buf).2.event OSPA_STAT_ID_ADK_PROOF_VALID =
          st.event OSPA_STAT_ID_ADK_PROOF_VALID ∧
        (xdp_openspa_adk cfg st buf).2.event OSPA_STAT_ID_NOT_OPENSPA_PACKET =
          st.event OSPA_STAT_ID_NOT_OPENSPA_PACKET) ∧
      ((xdp_openspa_adk cfg st buf).1 = XDP_PASS ↔
        adk_proof_valid cfg (some (be32 buf (l4 + 12))) = 1) ∧
      (adk_proof_valid cfg (some (be32 buf (l4 + 12))) ≠ 1 →
        (xdp_openspa_adk cfg st buf).1 = XDP_DROP ∧
          (xdp_openspa_adk cfg st buf).2.event OSPA_STAT_ID_ADK_PROOF_VALID =
            st.event OSPA_STAT_ID_ADK_PROOF_VALID) := by
  have hb := body_of_reaches cfg st buf l4 hr
  have hdrop : adk_proof_valid cfg (some (be32 buf (l4 + 12))) ≤ 0 →
      (xdp_openspa_adk cfg st buf).1 = XDP_DROP ∧
        (xdp_openspa_adk cfg st buf).2.event OSPA_STAT_ID_ADK_PROOF_INVALID =
          (st.event OSPA_STAT_ID_ADK_PROOF_INVALID + 1) % U64_MOD ∧
        (xdp_openspa_adk cfg st buf).2.event OSPA_STAT_ID_ADK_PROOF_VALID =
          st.event OSPA_STAT_ID_ADK_PROOF_VALID ∧
        (xdp_openspa_adk cfg st buf).2.event OSPA_STAT_ID_NOT_OPENSPA_PACKET =
          st.event OSPA_STAT_ID_NOT_OPENSPA_PACKET := by
    intro hle
    rw [if_pos hle] at hb
    obtain ⟨ha, he⟩ := adk_of_body cfg st _ buf _ hb
    refine ⟨ha, ?_, ?_, ?_⟩
    · rw [he]; exact record_event_same st _ (by decide)
    · rw [he]; exact record_event_other st _ _ (by decide) (by decide)
    · rw [he]; exact record_event_other st _ _ (by decide) (by decide)
  have hrange := adk_proof_valid_range cfg (be32 buf (l4 + 12))
  refine ⟨?_, ?_, ?_⟩
  · intro hnz hfail
    have h0 : adk_proof_valid cfg (some (be32 buf (l4 + 12))) = 0 :=
      adk_proof_valid_lookup_error cfg _ hnz hfail
    exact ⟨h0, hdrop (by omega)⟩
  · constructor
    · intro hpass
      by_contra hne
      have hle : adk_proof_valid cfg (some (be32 buf (l4 + 12))) ≤ 0 := by
        rcases hrange with h | h | h <;> omega
      have := (hdrop hle).1
      rw [this] at hpass
      exact absurd hpass (by decide)
    · intro h1
      rw [h1, if_neg (by decide)] at hb
      exact (adk_of_body cfg st _ buf _ hb).1
  · intro hne
    have hle : adk_proof_valid cfg (some (be32 buf (l4 + 12))) ≤ 0 := by
      rcases hrange with h | h | h <;> omega
    exact ⟨(hdrop hle).1, (hdrop hle).2.2.1⟩

/-- Witness for C13: the allow-listed proof `0xAABBCCDD` against a table whose
allow-list slots cannot be read is dropped and counted as proof-invalid. -/
theorem C13_lookup_error_fails_closed_witness :
    cfgNoSlots CONFIG_MAP_IDX_ADK_PROOF_FIRST = none ∧
      adk_proof_valid cfgNoSlots (some (be32 frameValid (34 + 12))) = 0 ∧
      (xdp_openspa_adk cfgNoSlots stSome frameValid).1 = XDP_DROP ∧
      (xdp_openspa_adk cfgNoSlots stSome frameValid).2.event OSPA_STAT_ID_ADK_PROOF_INVALID =
        (stSome.event OSPA_STAT_ID_ADK_PROOF_INVALID + 1) % U64_MOD ∧
      (xdp_openspa_adk cfgNoSlots stSome frameValid).2.event OSPA_STAT_ID_ADK_PROOF_VALID =
        stSome.event OSPA_STAT_ID_ADK_PROOF_VALID ∧
      (xdp_openspa_adk cfgNoSlots stSome frameValid).2.event OSPA_STAT_ID_NOT_OPENSPA_PACKET =
        stSome.event OSPA_STAT_ID_NOT_OPENSPA_PACKET :=
  ⟨rfl,
    (C13_lookup_error_fails_closed cfgNoSlots stSome frameValid 34
      ⟨udpOverIp_of_udpFrame _ _ ⟨0, Or.inl ⟨by decide, by decide⟩⟩, by decide, by decide,
        by decide⟩).1 (by decide) (Or.inl rfl)⟩

/-- The VLAN loop started on the type field at offset `t` (cursor `t + 2`) unwraps
`k` tags when the first `k` type fields are VLAN types, the `k` tags fit, and the
loop stops there. -/
theorem vlan_loop_run (buf : Packet) :
    ∀ (k n i t : Nat) (vl : Option (List Nat)), k ≤ n →
      (∀ j, j < k → IsVlanType (be16 buf (t + 4 * j))) → t + 2 + 4 * k ≤ buf.length →
      (k = n ∨ ¬ IsVlanType (be16 buf (t + 4 * k)) ∨ buf.length < t + 2 + 4 * k + 4) →
      ∃ vl1, vlan_loop buf n i ⟨t + 2, load16 buf t, vl⟩ =
        ⟨t + 2 + 4 * k, load16 buf (t + 4 * k), vl1⟩ := by
  intro k
  induction k with
  | zero =>
    intro n i t vl _ _ _ hs
    refine ⟨vl, ?_⟩
    simp only [Nat.mul_zero, Nat.add_zero] at hs ⊢
    rcases hs with hs | hs | hs
    · rw [← hs]; rfl
    · apply vlan_loop_stop
      simp only [proto_is_vlan_load16, if_neg hs]
    · apply vlan_loop_short
      simp only; omega
  | succ k ih =>
    intro n i t vl hkn hv hlen hs
    obtain ⟨m, rfl⟩ : ∃ m, n = m + 1 := ⟨n - 1, by omega⟩
    have hv0 : IsVlanType (be16 buf t) := by
      have := hv 0 (by omega)
      simpa using this
    rw [vlan_loop_step buf m i _ (by simp only [proto_is_vlan_load16]; rw [if_pos hv0])
      (by simp only; omega)]
    simp only
    have e1 : t + 2 + 4 = t + 4 + 2 := by omega
    have e2 : t + 2 + 2 = t + 4 := by omega
    rw [e1, e2]
    obtain ⟨vl1, h1⟩ := ih m (i + 1) (t + 4)
      (vl.map (fun v => v.set i (bpf_ntohs (load16 buf (t + 4 + 2 - 4)) &&& VLAN_VID_MASK)))
      (by omega)
      (by
        intro j hj
        have := hv (j + 1) (by omega)
        have e : t + 4 * (j + 1) = t + 4 + 4 * j := by omega
        rw [e] at this; exact this)
      (by omega)
      (by
        have e : t + 4 * (k + 1) = t + 4 + 4 * k := by omega
        rw [e] at hs
        rcases hs with hs | hs | hs
        · exact Or.inl (by omega)
        · exact Or.inr (Or.inl hs)
        · exact Or.inr (Or.inr (by omega)))
    have e3 : t + 4 + 2 + 4 * k = t + 2 + 4 * (k + 1) := by omega
    have e4 : t + 4 + 4 * k = t + 4 * (k + 1) := by omega
    rw [e3, e4] at h1
    have e5 : t + 4 + 2 - 4 = t + 2 := by omega
    rw [e5] at h1
    exact ⟨vl1, h1⟩

theorem parse_ethhdr_vlan_of_tags (buf : Packet) (nh k : Nat) (vlans : Option (List Nat))
    (ht : VlanTags buf nh k)
    (hs : k = 2 ∨ ¬ IsVlanType (be16 buf (nh + 12 + 4 * k)) ∨ buf.length < nh + 14 + 4 * k + 4) :
    (parse_ethhdr_vlan buf nh vlans).1 =
      ⟨(load16 buf (nh + 12 + 4 * k) : Nat), nh + 14 + 4 * k, nh⟩ := by
  obtain ⟨hk, hv, hlen⟩ := ht
  unfold VLAN_MAX_DEPTH at hk
  obtain ⟨vl1, h1⟩ := vlan_loop_run buf k 2 0 (nh + 12) vlans hk hv (by omega)
    (by
      rcases hs with hs | hs | hs
      · exact Or.inl hs
      · exact Or.inr (Or.inl hs)
      · exact Or.inr (Or.inr (by omega)))
  have e1 : nh + 12 + 2 = nh + 14 := by omega
  have e2 : nh + 12 + 2 + 4 * k = nh + 14 + 4 * k := by omega
  rw [e1, e2] at h1
  unfold parse_ethhdr_vlan
  simp only [SIZEOF_ETHHDR, VLAN_MAX_DEPTH]
  rw [if_neg (by omega), h1]

theorem vlanTags_stop_exists (buf : Packet) (nh : Nat) (h : nh + 14 ≤ buf.length) :
    ∃ k, VlanTags buf nh k ∧
      (k = 2 ∨ ¬ IsVlanType (be16 buf (nh + 12 + 4 * k)) ∨ buf.length < nh + 14 + 4 * k + 4) := by
  have t0 : VlanTags buf nh 0 := ⟨by decide, by intro i hi; omega, by omega⟩
  by_cases v0 : IsVlanType (be16 buf (nh + 12 + 4 * 0))
  · by_cases l1 : buf.length < nh + 14 + 4 * 0 + 4
    · exact ⟨0, t0, Or.inr (Or.inr l1)⟩
    · have t1 : VlanTags buf nh 1 := by
        refine ⟨by decide, ?_, by omega⟩
        intro i hi
        have hi0 : i = 0 := by omega
        rw [hi0]; exact v0
      by_cases v1 : IsVlanType (be16 buf (nh + 12 + 4 * 1))
      · by_cases l2 : buf.length < nh + 14 + 4 * 1 + 4
        · exact ⟨1, t1, Or.inr (Or.inr l2)⟩
        · refine ⟨2, ⟨by decide, ?_, by omega⟩, Or.inl rfl⟩
          intro i hi
          have hi0 : i = 0 ∨ i = 1 := by omega
          rcases hi0 with hi0 | hi0
          · rw [hi0]; exact v0
          · rw [hi0]; exact v1
      · exact ⟨1, t1, Or.inr (Or.inl v1)⟩
  · exact ⟨0, t0, Or.inr (Or.inl v0)⟩

theorem vlanTags_le_of_stop (buf : Packet) (nh k j : Nat) (hj : VlanTags buf nh j)
    (hs : k = 2 ∨ ¬ IsVlanType (be16 buf (nh + 12 + 4 * k)) ∨ buf.length < nh + 14 + 4 * k + 4) :
    j ≤ k := by
  obtain ⟨hj2, hjv, hjl⟩ := hj
  unfold VLAN_MAX_DEPTH at hj2
  by_contra hc
  rcases hs with hs | hs | hs
  · omega
  · exact hs (hjv k (by omega))
  · omega

/-- Claim C16.  For every buffer in which at least 14 bytes follow the cursor,
`parse_ethhdr_vlan` succeeds: with `k` the largest number of unwrappable VLAN tags
(`VlanTags`: at most 2, the link EtherType and the inner EtherTypes of the first
`k - 1` tags are `0x8100` or `0x88A8`, each of the `k` tags fully inside the
buffer) it consumes `14 + 4 * k` bytes and returns, as a non-negative value in
network byte order, the type field found after the `k`-th tag (the link header's
own EtherType when `k = 0`).  A third tag or a truncated tag does not make the
parse fail. -/
theorem C16_parse_ethhdr_vlan_unwraps (buf : Packet) (nh : Nat) (vlans : Option (List Nat))
    (h : nh + 14 ≤ buf.length) :
    ∃ k, VlanTags buf nh k ∧ (∀ j, VlanTags buf nh j → j ≤ k) ∧
      (parse_ethhdr_vlan buf nh vlans).1.pos = nh + 14 + 4 * k ∧
      (parse_ethhdr_vlan buf nh vlans).1.ret = (load16 buf (nh + 12 + 4 * k) : Nat) ∧
      0 ≤ (parse_ethhdr_vlan buf nh vlans).1.ret ∧
      bpf_ntohs (load16 buf (nh + 12 + 4 * k)) = be16 buf (nh + 12 + 4 * k) ∧
      (parse_ethhdr_vlan buf nh vlans).1.hdr = nh := by
  obtain ⟨k, ht, hs⟩ := vlanTags_stop_exists buf nh h
  have hp := parse_ethhdr_vlan_of_tags buf nh k vlans ht hs
  refine ⟨k, ht, fun j hj => vlanTags_le_of_stop buf nh k j hj hs, ?_, ?_, ?_, ?_, ?_⟩
  · rw [hp]
  · rw [hp]
  · rw [hp]; exact Int.ofNat_nonneg _
  · exact bpf_ntohs_load16 buf _
  · rw [hp]

/-- Witness for C16: of three VLAN tags two are unwrapped, and the type returned
is the VLAN type `0x8100` announcing the third. -/
theorem C16_parse_ethhdr_vlan_unwraps_witness :
    (parse_ethhdr_vlan frameTripleVlan 0 none).1.pos = 14 + 4 * 2 ∧
      (parse_ethhdr_vlan frameTripleVlan 0 none).1.ret = (bpf_htons ETH_P_8021Q : Nat) ∧
      ∃ k, VlanTags frameTripleVlan 0 k ∧ (∀ j, VlanTags frameTripleVlan 0 j → j ≤ k) ∧
        (parse_ethhdr_vlan frameTripleVlan 0 none).1.pos = 0 + 14 + 4 * k ∧
        (parse_ethhdr_vlan frameTripleVlan 0 none).1.ret =
          (load16 frameTripleVlan (0 + 12 + 4 * k) : Nat) ∧
        0 ≤ (parse_ethhdr_vlan frameTripleVlan 0 none).1.ret ∧
        bpf_ntohs (load16 frameTripleVlan (0 + 12 + 4 * k)) =
          be16 frameTripleVlan (0 + 12 + 4 * k) ∧
        (parse_ethhdr_vlan frameTripleVlan 0 none).1.hdr = 0 :=
  ⟨by decide, by decide, C16_parse_ethhdr_vlan_unwraps frameTripleVlan 0 none (by decide)⟩

/-- Claim C17.  For every buffer and cursor, `parse_iphdr` succeeds exactly when
at least 20 bytes remain, the header-length field `ihl` (low nibble of the first
header byte) is at least 5, and at least `ihl * 4` bytes remain.  On success the
cursor advances by exactly `ihl * 4`, between 20 and 60, and the result is the
protocol byte at offset 9, between 0 and 255.  On failure the result is `-1` and
the cursor is unchanged. -/
theorem C17_parse_iphdr_contract (buf : Packet) (nh : Nat) :
    (0 ≤ (parse_iphdr buf nh).ret ↔
        (nh + 20 ≤ buf.length ∧ 5 ≤ byteAt buf nh % 16 ∧
          nh + byteAt buf nh % 16 * 4 ≤ buf.length)) ∧
      (0 ≤ (parse_iphdr buf nh).ret →
        (parse_iphdr buf nh).pos = nh + byteAt buf nh % 16 * 4 ∧
          20 ≤ byteAt buf nh % 16 * 4 ∧ byteAt buf nh % 16 * 4 ≤ 60 ∧
          (parse_iphdr buf nh).ret = (byteAt buf (nh + 9) : Nat) ∧
          (parse_iphdr buf nh).ret ≤ 255) ∧
      (¬ 0 ≤ (parse_iphdr buf nh).ret →
        (parse_iphdr buf nh).ret = -1 ∧ (parse_iphdr buf nh).pos = nh) := by
  have hb := byteAt_lt buf (nh + 9)
  have hm : byteAt buf nh % 16 < 16 := Nat.mod_lt _ (by decide)
  unfold parse_iphdr
  simp only [SIZEOF_IPHDR]
  by_cases c1 : nh + 20 > buf.length
  · simp only [if_pos c1]
    refine ⟨?_, ?_, ?_⟩
    · constructor
      · intro h; omega
      · intro h; omega
    · intro h; omega
    · intro _; refine ⟨?_, ?_⟩ <;> first | rfl | trivial
  · simp only [if_neg c1]
    by_cases c2 : byteAt buf nh % 16 * 4 < 20
    · simp only [if_pos c2]
      refine ⟨?_, ?_, ?_⟩
      · constructor
        · intro h; omega
        · intro h; omega
      · intro h; omega
      · intro _; refine ⟨?_, ?_⟩ <;> first | rfl | trivial
    · simp only [if_neg c2]
      by_cases c3 : nh + byteAt buf nh % 16 * 4 > buf.length
      · simp only [if_pos c3]
        refine ⟨?_, ?_, ?_⟩
        · constructor
          · intro h; omega
          · intro h; omega
        · intro h; omega
        · intro _; refine ⟨?_, ?_⟩ <;> first | rfl | trivial
      · simp only [if_neg c3]
        refine ⟨?_, ?_, ?_⟩
        · constructor
          · intro _; omega
          · intro _; omega
        · intro _; refine ⟨?_, ?_, ?_, ?_, ?_⟩ <;> first | rfl | trivial | omega
        · intro h; omega

/-- Claim C18.  For every buffer and cursor, `parse_ip6hdr` succeeds exactly when
at least 40 bytes remain; on success the cursor advances by exactly 40 and the
result is the next-header byte at offset 6 of the fixed header; on failure the
result is `-1` and the cursor is unchanged.  No extension header is walked: for a
frame whose link header parses to EtherType IPv6 with a complete fixed header at
`nh`, the pipeline continues with the transport stage at `nh + 40` exactly when
that byte is 17, and otherwise passes the frame without any event. -/
theorem C18_parse_ip6hdr_contract (cfg : Config) (st : Stats) (buf : Packet) (nh : Nat) :
    (0 ≤ (parse_ip6hdr buf nh).ret ↔ nh + 40 ≤ buf.length) ∧
      (0 ≤ (parse_ip6hdr buf nh).ret →
        (parse_ip6hdr buf nh).pos = nh + 40 ∧
          (parse_ip6hdr buf nh).ret = (byteAt buf (nh + 6) : Nat)) ∧
      (¬ 0 ≤ (parse_ip6hdr buf nh).ret →
        (parse_ip6hdr buf nh).ret = -1 ∧ (parse_ip6hdr buf nh).pos = nh) ∧
      ((parse_ethhdr buf 0).ret = (bpf_htons ETH_P_IPV6 : Nat) → (parse_ethhdr buf 0).pos = nh →
        nh + 40 ≤ buf.length →
        xdp_openspa_adk_body cfg st buf =
          if byteAt buf (nh + 6) = 17 then transport_stage cfg st buf (nh + 40)
          else (XDP_PASS, st)) := by
  have hpar : nh + 40 ≤ buf.length →
      parse_ip6hdr buf nh = ⟨(byteAt buf (nh + 6) : Nat), nh + 40, nh⟩ := by
    intro hl
    unfold parse_ip6hdr
    simp only [SIZEOF_IPV6HDR]
    rw [if_neg (by omega)]
  have hfail : ¬ nh + 40 ≤ buf.length → parse_ip6hdr buf nh = ⟨-1, nh, nh⟩ := by
    intro hl
    unfold parse_ip6hdr
    simp only [SIZEOF_IPV6HDR]
    rw [if_pos (by omega)]
  refine ⟨?_, ?_, ?_, ?_⟩
  · by_cases hl : nh + 40 ≤ buf.length
    · rw [hpar hl]; simp only [hl, iff_true]; exact Int.ofNat_nonneg _
    · rw [hfail hl]; simp only [hl, iff_false]; decide
  · intro h
    by_cases hl : nh + 40 ≤ buf.length
    · rw [hpar hl]; exact ⟨rfl, rfl⟩
    · rw [hfail hl] at h; exact absurd h (show ¬ (0 : Int) ≤ -1 by decide)
  · intro h
    by_cases hl : nh + 40 ≤ buf.length
    · rw [hpar hl] at h; exact absurd (Int.ofNat_nonneg _) h
    · rw [hfail hl]; exact ⟨rfl, rfl⟩
  · intro he hpos hl
    have hnp : NetworkParse buf (parse_ip6hdr buf nh) := Or.inr ⟨he, by rw [hpos]⟩
    rw [body_of_networkParse cfg st buf _ hnp, hpar hl]
    unfold network_stage IPPROTO_UDP
    simp only
    by_cases hb : byteAt buf (nh + 6) = 17
    · rw [if_pos hb, if_neg (by rw [hb]; decide)]
    · rw [if_neg hb, if_pos (by omega)]

/-! ## Cursor and memory safety -/

theorem byteAtChecked_of_lt (buf : Packet) (i : Nat) (h : i < buf.length) :
    byteAtChecked buf i = some (byteAt buf i) := by
  unfold byteAtChecked byteAt
  rw [List.getD_eq_getElem?_getD, List.getElem?_eq_getElem h]
  rfl

theorem load16Checked_of_lt (buf : Packet) (off : Nat) (h : off + 2 ≤ buf.length) :
    load16Checked buf off = some (load16 buf off) := by
  unfold load16Checked load16
  rw [byteAtChecked_of_lt buf off (by omega), byteAtChecked_of_lt buf (off + 1) (by omega)]
  rfl

theorem vlan_loop_checked_eq (buf : Packet) :
    ∀ (n i : Nat) (s : VlanState), vlan_loop_checked buf n i s = some (vlan_loop buf n i s) := by
  intro n
  induction n with
  | zero => intro i s; rfl
  | succ n ih =>
    intro i s
    simp only [vlan_loop_checked, vlan_loop, SIZEOF_VLAN_HDR]
    by_cases c1 : proto_is_vlan s.h_proto = 0
    · rw [if_pos c1, if_pos c1]
    · rw [if_neg c1, if_neg c1]
      by_cases c2 : s.vlh + 4 > buf.length
      · rw [if_pos c2, if_pos c2]
      · rw [if_neg c2, if_neg c2, load16Checked_of_lt buf (s.vlh + 2) (by omega)]
        cases hv : s.vlans with
        | none => simp only [Option.some_bind]; exact ih _ _
        | some v =>
          rw [load16Checked_of_lt buf s.vlh (by omega)]
          simp only [Option.some_bind, Option.map_some']
          exact ih _ _

theorem vlan_loop_vlh (buf : Packet) :
    ∀ (n i : Nat) (s : VlanState), s.vlh ≤ buf.length →
      s.vlh ≤ (vlan_loop buf n i s).vlh ∧ (vlan_loop buf n i s).vlh ≤ buf.length := by
  intro n
  induction n with
  | zero => intro i s h; exact ⟨Nat.le_refl _, h⟩
  | succ n ih =>
    intro i s h
    simp only [vlan_loop, SIZEOF_VLAN_HDR]
    by_cases c1 : proto_is_vlan s.h_proto = 0
    · rw [if_pos c1]; exact ⟨Nat.le_refl _, h⟩
    · rw [if_neg c1]
      by_cases c2 : s.vlh + 4 > buf.length
      · rw [if_pos c2]; exact ⟨Nat.le_refl _, h⟩
      · rw [if_neg c2]
        have := ih (i + 1) ⟨s.vlh + 4, load16 buf (s.vlh + 2),
          s.vlans.map (fun v => v.set i (bpf_ntohs (load16 buf s.vlh) &&& VLAN_VID_MASK))⟩
          (by simp only; omega)
        simp only at this
        exact ⟨by omega, this.2⟩

theorem parse_ethhdr_vlan_pos (buf : Packet) (nh : Nat) (vlans : Option (List Nat))
    (h : nh ≤ buf.length) :
    nh ≤ (parse_ethhdr_vlan buf nh vlans).1.pos ∧
      (parse_ethhdr_vlan buf nh vlans).1.pos ≤ buf.length := by
  unfold parse_ethhdr_vlan
  simp only [SIZEOF_ETHHDR]
  by_cases c : nh + 14 > buf.length
  · rw [if_pos c]; exact ⟨Nat.le_refl _, h⟩
  · rw [if_neg c]
    have := vlan_loop_vlh buf VLAN_MAX_DEPTH 0 ⟨nh + 14, load16 buf (nh + 12), vlans⟩
      (by simp only; omega)
    simp only at this ⊢
    exact ⟨by omega, this.2⟩

theorem parse_iphdr_pos (buf : Packet) (nh : Nat) (h : nh ≤ buf.length) :
    nh ≤ (parse_iphdr buf nh).pos ∧ (parse_iphdr buf nh).pos ≤ buf.length := by
  unfold parse_iphdr
  simp only [SIZEOF_IPHDR]
  split_ifs <;> simp only <;> omega

theorem parse_ip6hdr_pos (buf : Packet) (nh : Nat) (h : nh ≤ buf.length) :
    nh ≤ (parse_ip6hdr buf nh).pos ∧ (parse_ip6hdr buf nh).pos ≤ buf.length := by
  unfold parse_ip6hdr
  simp only [SIZEOF_IPV6HDR]
  split_ifs <;> simp only <;> omega

theorem parse_udphdr_pos (buf : Packet) (nh : Nat) (h : nh ≤ buf.length) :
    nh ≤ (parse_udphdr buf nh).pos ∧ (parse_udphdr buf nh).pos ≤ buf.length := by
  unfold parse_udphdr
  simp only [SIZEOF_UDPHDR]
  split_ifs <;> simp only <;> omega

theorem parse_ospahdr_pos (buf : Packet) (nh : Nat) (h : nh ≤ buf.length) :
    nh ≤ (parse_ospahdr buf nh).pos ∧ (parse_ospahdr buf nh).pos ≤ buf.length := by
  unfold parse_ospahdr
  simp only [SIZEOF_OSPAHDR]
  split_ifs <;> simp only <;> omega

theorem parse_ethhdr_vlan_checked_eq (buf : Packet) (nh : Nat) (vlans : Option (List Nat)) :
    parse_ethhdr_vlan_checked buf nh vlans = some (parse_ethhdr_vlan buf nh vlans) := by
  unfold parse_ethhdr_vlan_checked parse_ethhdr_vlan
  simp only [SIZEOF_ETHHDR]
  by_cases c : nh + 14 > buf.length
  · rw [if_pos c, if_pos c]
  · rw [if_neg c, if_neg c, load16Checked_of_lt buf (nh + 12) (by omega)]
    simp only [Option.some_bind, vlan_loop_checked_eq, Option.map_some']

theorem parse_iphdr_checked_eq (buf : Packet) (nh : Nat) :
    parse_iphdr_checked buf nh = some (parse_iphdr buf nh) := by
  unfold parse_iphdr_checked parse_iphdr
  simp only [SIZEOF_IPHDR]
  by_cases c : nh + 20 > buf.length
  · rw [if_pos c, if_pos c]
  · rw [if_neg c, if_neg c, byteAtChecked_of_lt buf nh (by omega)]
    simp only [Option.some_bind]
    split_ifs
    · rfl
    · rfl
    · rw [byteAtChecked_of_lt buf (nh + 9) (by omega)]; rfl

theorem parse_ip6hdr_checked_eq (buf : Packet) (nh : Nat) :
    parse_ip6hdr_checked buf nh = some (parse_ip6hdr buf nh) := by
  unfold parse_ip6hdr_checked parse_ip6hdr
  simp only [SIZEOF_IPV6HDR]
  by_cases c : nh + 40 > buf.length
  · rw [if_pos c, if_pos c]
  · rw [if_neg c, if_neg c, byteAtChecked_of_lt buf (nh + 6) (by omega)]; rfl

theorem parse_udphdr_checked_eq (buf : Packet) (nh : Nat) :
    parse_udphdr_checked buf nh = some (parse_udphdr buf nh) := by
  unfold parse_udphdr_checked parse_udphdr
  by_cases c : nh + SIZEOF_UDPHDR > buf.length
  · rw [if_pos c, if_pos c]
  · rw [if_neg c, if_neg c, load16Checked_of_lt buf (nh + 4) (by unfold SIZEOF_UDPHDR at c; omega)]
    simp only [Option.map_some']

theorem parse_ospahdr_checked_eq (buf : Packet) (nh : Nat) :
    parse_ospahdr_checked buf nh = some (parse_ospahdr buf nh) := by
  unfold parse_ospahdr_checked parse_ospahdr
  simp only
  split_ifs <;> rfl

theorem cursor_trace_bounded (cfg : Config) (buf : Packet) :
    (xdp_openspa_adk_cursor cfg buf).Pairwise (fun a b => a ≤ b) ∧
      ∀ p ∈ xdp_openspa_adk_cursor cfg buf, p ≤ buf.length := by
  have hE : 0 ≤ (parse_ethhdr buf 0).pos ∧ (parse_ethhdr buf 0).pos ≤ buf.length :=
    parse_ethhdr_vlan_pos buf 0 none (Nat.zero_le _)
  have hI4 := parse_iphdr_pos buf _ hE.2
  have hI6 := parse_ip6hdr_pos buf _ hE.2
  have hU4 := parse_udphdr_pos buf _ hI4.2
  have hU6 := parse_udphdr_pos buf _ hI6.2
  have hO4 := parse_ospahdr_pos buf _ hU4.2
  have hO6 := parse_ospahdr_pos buf _ hU6.2
  unfold xdp_openspa_adk_cursor
  simp only
  by_cases h0 : (parse_ethhdr buf 0).ret < 0
  · simp only [if_pos h0]
    simp only [List.pairwise_cons, List.mem_cons, List.mem_singleton, List.not_mem_nil,
      forall_eq_or_imp, forall_eq, List.Pairwise.nil, IsEmpty.forall_iff, implies_true, and_true]
    omega
  · by_cases h1 : (parse_ethhdr buf 0).ret = (bpf_htons ETH_P_IP : Nat)
    · simp only [if_neg h0, if_pos h1]
      split_ifs <;>
        simp only [List.pairwise_cons, List.mem_cons, List.mem_singleton, List.not_mem_nil,
          forall_eq_or_imp, forall_eq, List.Pairwise.nil, IsEmpty.forall_iff, implies_true,
          and_true] <;>
        omega
    · by_cases h2 : (parse_ethhdr buf 0).ret = (bpf_htons ETH_P_IPV6 : Nat)
      · simp only [if_neg h0, if_neg h1, if_pos h2]
        split_ifs <;>
          simp only [List.pairwise_cons, List.mem_cons, List.mem_singleton, List.not_mem_nil,
            forall_eq_or_imp, forall_eq, List.Pairwise.nil, IsEmpty.forall_iff, implies_true,
            and_true] <;>
          omega
      · simp only [if_neg h0, if_neg h1, if_neg h2]
        simp only [List.pairwise_cons, List.mem_cons, List.mem_singleton, List.not_mem_nil,
          forall_eq_or_imp, forall_eq, List.Pairwise.nil, IsEmpty.forall_iff, implies_true,
          and_true]
        omega

/-- Claim C15.  For every buffer and every cursor `nh` inside it, each of
`parse_ethhdr_vlan`, `parse_iphdr`, `parse_ip6hdr`, `parse_udphdr` and
`parse_ospahdr` leaves the cursor at a position between `nh` and the end of the
buffer, on success and on failure.  Every byte a parser reads lies inside the
buffer: run over a memory in which a read outside the buffer is a fault, each
parser completes with the same result.  During `xdp_openspa_adk` the cursor starts
at 0, never moves backwards and never passes the end of the buffer. -/
theorem C15_cursor_invariant (buf : Packet) (nh : Nat) (vlans : Option (List Nat))
    (h : nh ≤ buf.length) :
    (nh ≤ (parse_ethhdr_vlan buf nh vlans).1.pos ∧
        (parse_ethhdr_vlan buf nh vlans).1.pos ≤ buf.length) ∧
      (nh ≤ (parse_iphdr buf nh).pos ∧ (parse_iphdr buf nh).pos ≤ buf.length) ∧
      (nh ≤ (parse_ip6hdr buf nh).pos ∧ (parse_ip6hdr buf nh).pos ≤ buf.length) ∧
      (nh ≤ (parse_udphdr buf nh).pos ∧ (parse_udphdr buf nh).pos ≤ buf.length) ∧
      (nh ≤ (parse_ospahdr buf nh).pos ∧ (parse_ospahdr buf nh).pos ≤ buf.length) ∧
      parse_ethhdr_vlan_checked buf nh vlans = some (parse_ethhdr_vlan buf nh vlans) ∧
      parse_iphdr_checked buf nh = some (parse_iphdr buf nh) ∧
      parse_ip6hdr_checked buf nh = some (parse_ip6hdr buf nh) ∧
      parse_udphdr_checked buf nh = some (parse_udphdr buf nh) ∧
      parse_ospahdr_checked buf nh = some (parse_ospahdr buf nh) ∧
      (∀ cfg : Config, (xdp_openspa_adk_cursor cfg buf).Pairwise (fun a b => a ≤ b) ∧
        ∀ p ∈ xdp_openspa_adk_cursor cfg buf, p ≤ buf.length) :=
  ⟨parse_ethhdr_vlan_pos buf nh vlans h, parse_iphdr_pos buf nh h, parse_ip6hdr_pos buf nh h,
    parse_udphdr_pos buf nh h, parse_ospahdr_pos buf nh h,
    parse_ethhdr_vlan_checked_eq buf nh vlans, parse_iphdr_checked_eq buf nh,
    parse_ip6hdr_checked_eq buf nh, parse_udphdr_checked_eq buf nh,
    parse_ospahdr_checked_eq buf nh, fun cfg => cursor_trace_bounded cfg buf⟩

/-- Witness for C15: the UDP parser on a frame cut four bytes into the UDP header
fails and leaves the cursor where it was, inside the buffer; on the accepted frame
the cursor of the pipeline visits 0, 14, 34, 42, 50. -/
theorem C15_cursor_invariant_witness :
    (parse_udphdr frameShortUdp 34).ret = -1 ∧
      xdp_openspa_adk_cursor cfgExample frameValid = [0, 14, 34, 42, 50] ∧
      (34 ≤ (parse_udphdr frameShortUdp 34).pos ∧
        (parse_udphdr frameShortUdp 34).pos ≤ frameShortUdp.length) :=
  ⟨by decide, by decide, (C15_cursor_invariant frameShortUdp 34 none (by decide)).2.2.2.1⟩

set_option maxRecDepth 8000 in
/-- Witness for C18: a datagram behind a hop-by-hop extension header is not
treated as UDP and is passed without any event, while the same datagram directly
after the fixed header is validated. -/
theorem C18_parse_ip6hdr_contract_witness :
    byteAt frameV6Ext (14 + 6) = 0 ∧
      (xdp_openspa_adk cfgExample stSome frameV6Ext).1 = XDP_PASS ∧
      (xdp_openspa_adk cfgExample stSome frameV6Ext).2.event OSPA_STAT_ID_ADK_PROOF_VALID =
        stSome.event OSPA_STAT_ID_ADK_PROOF_VALID ∧
      (xdp_openspa_adk cfgExample stSome frameV6Udp).2.event OSPA_STAT_ID_ADK_PROOF_VALID =
        stSome.event OSPA_STAT_ID_ADK_PROOF_VALID + 1 ∧
      xdp_openspa_adk_body cfgExample stSome frameV6Ext =
        (if byteAt frameV6Ext (14 + 6) = 17 then
          transport_stage cfgExample stSome frameV6Ext (14 + 40)
        else (XDP_PASS, stSome)) :=
  ⟨by decide, by decide, by decide, by decide,
    (C18_parse_ip6hdr_contract cfgExample stSome frameV6Ext 14).2.2.2 (by decide) (by decide)
      (by decide)⟩

/-! ## The decision pipeline: global properties -/

theorem transport_stage_unfold (cfg : Config) (st : Stats) (buf : Packet) (l4 : Nat) :
    transport_stage cfg st buf l4 =
      if (parse_udphdr buf l4).ret < 0 then (XDP_ABORTED, st)
      else if openspa_server_port cfg = 0 then (XDP_PASS, st)
      else if bpf_ntohs (load16 buf ((parse_udphdr buf l4).hdr + 2)) ≠ openspa_server_port cfg then
        (XDP_PASS, st)
      else application_stage cfg st buf (parse_udphdr buf l4).pos := rfl

theorem application_stage_classify (cfg : Config) (buf : Packet) (l5 : Nat) :
    ∃ (a : Nat) (ev : Option Nat), (∀ id, ev = some id → id < OSPA_STAT_ID_MAX) ∧
      ∀ st : Stats, application_stage cfg st buf l5 = (a, record_opt st ev) := by
  by_cases c1 : (parse_ospahdr buf l5).ret < 0
  · refine ⟨XDP_DROP, some OSPA_STAT_ID_NOT_OPENSPA_PACKET, by intro id h; cases h; decide, ?_⟩
    intro st
    unfold application_stage
    simp only [if_pos c1]
    rfl
  · by_cases c2 : potentially_ospa_packet buf (parse_ospahdr buf l5).pos
        (parse_ospahdr buf l5).hdr < 0
    · refine ⟨XDP_DROP, some OSPA_STAT_ID_NOT_OPENSPA_PACKET, by intro id h; cases h; decide, ?_⟩
      intro st
      unfold application_stage
      simp only [if_neg c1, if_pos c2]
      rfl
    · by_cases c3 : adk_proof_valid cfg
          (some (bpf_ntohl (load32 buf ((parse_ospahdr buf l5).hdr + 4)))) ≤ 0
      · refine ⟨XDP_DROP, some OSPA_STAT_ID_ADK_PROOF_INVALID,
          by intro id h; cases h; decide, ?_⟩
        intro st
        unfold application_stage
        simp only [if_neg c1, if_neg c2, if_pos c3]
        rfl
      · refine ⟨XDP_PASS, some OSPA_STAT_ID_ADK_PROOF_VALID,
          by intro id h; cases h; decide, ?_⟩
        intro st
        unfold application_stage
        simp only [if_neg c1, if_neg c2, if_neg c3]
        rfl

theorem transport_stage_classify (cfg : Config) (buf : Packet) (l4 : Nat) :
    ∃ (a : Nat) (ev : Option Nat), (∀ id, ev = some id → id < OSPA_STAT_ID_MAX) ∧
      ∀ st : Stats, transport_stage cfg st buf l4 = (a, record_opt st ev) := by
  by_cases c1 : (parse_udphdr buf l4).ret < 0
  · exact ⟨XDP_ABORTED, none, fun id h => Option.noConfusion h,
      fun st => by rw [transport_stage_unfold, if_pos c1]; rfl⟩
  · by_cases c2 : openspa_server_port cfg = 0
    · exact ⟨XDP_PASS, none, fun id h => Option.noConfusion h,
        fun st => by rw [transport_stage_unfold, if_neg c1, if_pos c2]; rfl⟩
    · by_cases c3 : bpf_ntohs (load16 buf ((parse_udphdr buf l4).hdr + 2)) ≠
          openspa_server_port cfg
      · exact ⟨XDP_PASS, none, fun id h => Option.noConfusion h,
          fun st => by rw [transport_stage_unfold, if_neg c1, if_neg c2, if_pos c3]; rfl⟩
      · obtain ⟨a, ev, hev, h⟩ := application_stage_classify cfg buf (parse_udphdr buf l4).pos
        exact ⟨a, ev, hev,
          fun st => by rw [transport_stage_unfold, if_neg c1, if_neg c2, if_neg c3, h st]⟩

theorem network_stage_classify (cfg : Config) (buf : Packet) (ip : ParseResult) :
    ∃ (a : Nat) (ev : Option Nat), (∀ id, ev = some id → id < OSPA_STAT_ID_MAX) ∧
      ∀ st : Stats, network_stage cfg st buf ip = (a, record_opt st ev) := by
  by_cases c1 : ip.ret ≠ IPPROTO_UDP
  · exact ⟨XDP_PASS, none, fun id h => Option.noConfusion h,
      fun st => by unfold network_stage; rw [if_pos c1]; rfl⟩
  · obtain ⟨a, ev, hev, h⟩ := transport_stage_classify cfg buf ip.pos
    exact ⟨a, ev, hev, fun st => by unfold network_stage; rw [if_neg c1, h st]⟩

/-- The action and the event recorded by the body depend on the configuration and
the buffer only. -/
theorem body_classify (cfg : Config) (buf : Packet) :
    ∃ (a : Nat) (ev : Option Nat), (∀ id, ev = some id → id < OSPA_STAT_ID_MAX) ∧
      ∀ st : Stats, xdp_openspa_adk_body cfg st buf = (a, record_opt st ev) := by
  by_cases c0 : (parse_ethhdr buf 0).ret < 0
  · exact ⟨XDP_ABORTED, none, fun id h => Option.noConfusion h,
      fun st => by rw [body_eq, if_pos c0]; rfl⟩
  · by_cases c1 : (parse_ethhdr buf 0).ret = (bpf_htons ETH_P_IP : Nat)
    · obtain ⟨a, ev, hev, h⟩ :=
        network_stage_classify cfg buf (parse_iphdr buf (parse_ethhdr buf 0).pos)
      exact ⟨a, ev, hev, fun st => by rw [body_eq, if_neg c0, if_pos c1, h st]⟩
    · by_cases c2 : (parse_ethhdr buf 0).ret = (bpf_htons ETH_P_IPV6 : Nat)
      · obtain ⟨a, ev, hev, h⟩ :=
          network_stage_classify cfg buf (parse_ip6hdr buf (parse_ethhdr buf 0).pos)
        exact ⟨a, ev, hev, fun st => by rw [body_eq, if_neg c0, if_neg c1, if_pos c2, h st]⟩
      · exact ⟨XDP_PASS, none, fun id h => Option.noConfusion h,
          fun st => by rw [body_eq, if_neg c0, if_neg c1, if_neg c2]; rfl⟩

theorem record_event_ite (st : Stats) (id j : Nat) (h : id < OSPA_STAT_ID_MAX) :
    (xdp_openspa_stats_record_action st id).2.event j =
      if j = id then (st.event j + 1) % U64_MOD else st.event j := by
  by_cases e : j = id
  · rw [if_pos e, e]; exact record_event_same st id h
  · rw [if_neg e]; exact record_event_other st id j h e

theorem adk_packets (cfg : Config) (st : Stats) (buf : Packet) :
    (xdp_openspa_adk cfg st buf).2.packets (xdp_openspa_adk cfg st buf).1 =
      (st.packets (xdp_openspa_adk cfg st buf).1 + 1) % U64_MOD := by
  have hlt := body_action_lt cfg st buf
  have hst := body_stats cfg st buf
  rw [adk_action]
  unfold xdp_openspa_adk
  simp only [record_action_of_lt _ _ _ hlt, Stats.packets, hst, Function.update_same]

/-- Claim C14.  The action and the event classification of `xdp_openspa_adk`
depend on the buffer and the configuration only: there are an action `a` and an
event `ev` (or none) such that from every state of the counter tables the call
returns `a`, increments exactly the event counter `ev` (as a 64-bit counter) and
leaves the other event counters alone.  In particular a second call on the same
buffer and configuration, started from the counters left by the first, returns
the same action and records the same event, so that the event counter and the
packet count of the action have been incremented twice. -/
theorem C14_independent_of_counters (cfg : Config) (buf : Packet) :
    ∃ (a : Nat) (ev : Option Nat), ∀ st : Stats,
      (xdp_openspa_adk cfg st buf).1 = a ∧
        (∀ id, (xdp_openspa_adk cfg st buf).2.event id =
          if ev = some id then (st.event id + 1) % U64_MOD else st.event id) ∧
        (xdp_openspa_adk cfg (xdp_openspa_adk cfg st buf).2 buf).1 = a ∧
        (∀ id, (xdp_openspa_adk cfg (xdp_openspa_adk cfg st buf).2 buf).2.event id =
          if ev = some id then ((st.event id + 1) % U64_MOD + 1) % U64_MOD else st.event id) ∧
        (xdp_openspa_adk cfg (xdp_openspa_adk cfg st buf).2 buf).2.packets a =
          ((st.packets a + 1) % U64_MOD + 1) % U64_MOD := by
  obtain ⟨a, ev, hev, hb⟩ := body_classify cfg buf
  have hact : ∀ st, (xdp_openspa_adk cfg st buf).1 = a := by
    intro st; rw [adk_action, hb st]
  have hevt : ∀ st id, (xdp_openspa_adk cfg st buf).2.event id =
      if ev = some id then (st.event id + 1) % U64_MOD else st.event id := by
    intro st id
    rw [adk_event, hb st]
    cases ev with
    | none => simp [record_opt]
    | some e =>
      simp only [record_opt, record_event_ite st e id (hev e rfl), Option.some.injEq]
      by_cases c : id = e
      · rw [if_pos c, if_pos c.symm]
      · rw [if_neg c, if_neg (fun h => c h.symm)]
  refine ⟨a, ev, fun st => ⟨hact st, hevt st, hact _, ?_, ?_⟩⟩
  · intro id
    rw [hevt (xdp_openspa_adk cfg st buf).2 id, hevt st id]
    by_cases c : ev = some id
    · simp only [if_pos c]
    · simp only [if_neg c]
  · have h1 := adk_packets cfg st buf
    have h2 := adk_packets cfg (xdp_openspa_adk cfg st buf).2 buf
    rw [hact] at h1 h2
    rw [h2, h1]

theorem application_stage_cases (cfg : Config) (st : Stats) (buf : Packet) (l5 : Nat) :
    application_stage cfg st buf l5 =
        (XDP_DROP, (xdp_openspa_stats_record_action st OSPA_STAT_ID_NOT_OPENSPA_PACKET).2) ∨
      application_stage cfg st buf l5 =
        (XDP_DROP, (xdp_openspa_stats_record_action st OSPA_STAT_ID_ADK_PROOF_INVALID).2) ∨
      application_stage cfg st buf l5 =
        (XDP_PASS, (xdp_openspa_stats_record_action st OSPA_STAT_ID_ADK_PROOF_VALID).2) := by
  unfold application_stage
  simp only
  split_ifs
  · exact Or.inl rfl
  · exact Or.inl rfl
  · exact Or.inr (Or.inl rfl)
  · exact Or.inr (Or.inr rfl)

/-- Either the body leaves with `XDP_ABORTED` or `XDP_PASS` and untouched counters,
or the frame is a UDP datagram to the configured port and the body is the
application stage. -/
theorem body_untouched_or_service (cfg : Config) (st : Stats) (buf : Packet) :
    (xdp_openspa_adk_body cfg st buf = (XDP_ABORTED, st) ∨
        xdp_openspa_adk_body cfg st buf = (XDP_PASS, st)) ∨
      ∃ l4, UdpOverIp buf l4 ∧ UdpHeaderAt buf l4 ∧ ToService cfg buf l4 ∧
        xdp_openspa_adk_body cfg st buf = application_stage cfg st buf (l4 + 8) := by
  have key : ∀ r, NetworkParse buf r →
      (xdp_openspa_adk_body cfg st buf = (XDP_ABORTED, st) ∨
          xdp_openspa_adk_body cfg st buf = (XDP_PASS, st)) ∨
        ∃ l4, UdpOverIp buf l4 ∧ UdpHeaderAt buf l4 ∧ ToService cfg buf l4 ∧
          xdp_openspa_adk_body cfg st buf = application_stage cfg st buf (l4 + 8) := by
    intro r hr
    by_cases c1 : r.ret ≠ IPPROTO_UDP
    · refine Or.inl (Or.inr ?_)
      rw [body_of_networkParse cfg st buf r hr]
      unfold network_stage
      rw [if_pos c1]
    · have hip : UdpOverIp buf r.pos := ⟨r, hr, by simpa using c1, rfl⟩
      rw [body_of_udpOverIp cfg st buf r.pos hip]
      by_cases c2 : (parse_udphdr buf r.pos).ret < 0
      · refine Or.inl (Or.inl ?_)
        rw [transport_stage_unfold, if_pos c2]
      · have hu : UdpHeaderAt buf r.pos := by
          have := (parse_udphdr_ret_neg_iff buf r.pos).not.1 c2
          unfold UdpHeaderAt
          omega
        rw [transport_stage_eq cfg st buf r.pos hu]
        by_cases c3 : openspa_server_port cfg = 0
        · exact Or.inl (Or.inr (by rw [if_pos c3]))
        · by_cases c4 : be16 buf (r.pos + 2) ≠ openspa_server_port cfg
          · exact Or.inl (Or.inr (by rw [if_neg c3, if_pos c4]))
          · refine Or.inr ⟨r.pos, hip, hu, ⟨c3, by simpa using c4⟩, ?_⟩
            rw [if_neg c3, if_neg c4]
  by_cases c0 : (parse_ethhdr buf 0).ret < 0
  · exact Or.inl (Or.inl (by rw [body_eq, if_pos c0]))
  · by_cases c1 : (parse_ethhdr buf 0).ret = (bpf_htons ETH_P_IP : Nat)
    · exact key _ (Or.inl ⟨c1, rfl⟩)
    · by_cases c2 : (parse_ethhdr buf 0).ret = (bpf_htons ETH_P_IPV6 : Nat)
      · exact key _ (Or.inr ⟨c2, rfl⟩)
      · exact Or.inl (Or.inr (by rw [body_eq, if_neg c0, if_neg c1, if_neg c2]))

/-- Counterexample to claim C19 as stated.  With the proof-invalid counter at its
maximum `2^64 - 1`, the frame `frameInvalid` (unknown proof) is dropped and the
proof-invalid counter wraps to 0: it decreases, and no event counter has
increased by 1. -/
theorem C19_event_counter_wraps :
    (xdp_openspa_adk cfgExample stFull frameInvalid).1 = XDP_DROP ∧
      stFull.event OSPA_STAT_ID_ADK_PROOF_INVALID = 18446744073709551615 ∧
      (xdp_openspa_adk cfgExample stFull frameInvalid).2.event OSPA_STAT_ID_ADK_PROOF_INVALID =
        0 ∧
      (xdp_openspa_adk cfgExample stFull frameInvalid).2.event OSPA_STAT_ID_ADK_PROOF_INVALID <
        stFull.event OSPA_STAT_ID_ADK_PROOF_INVALID ∧
      (xdp_openspa_adk cfgExample stFull frameInvalid).2.event OSPA_STAT_ID_NOT_OPENSPA_PACKET =
        stFull.event OSPA_STAT_ID_NOT_OPENSPA_PACKET ∧
      (xdp_openspa_adk cfgExample stFull frameInvalid).2.event OSPA_STAT_ID_ADK_PROOF_VALID =
        stFull.event OSPA_STAT_ID_ADK_PROOF_VALID := by
  decide

/-- Claim C19, amended.  If `xdp_openspa_adk` returns `XDP_DROP` or changes an
event counter, then the frame is Ethernet with at most two VLAN tags, IPv4 or
IPv6, UDP with a complete header declaring a length of at least 8, the configured
port is non-zero and the destination port equals it; on such a call exactly one
event counter is incremented by 1 modulo `2^64` (by exactly 1 when it was below
`2^64 - 1`) and the other event counters are unchanged.  On every call, no event
counter below `2^64 - 1` decreases. -/
theorem C19_drop_only_service_traffic (cfg : Config) (st : Stats) (buf : Packet) :
    (((xdp_openspa_adk cfg st buf).1 = XDP_DROP ∨
        ∃ id, (xdp_openspa_adk cfg st buf).2.event id ≠ st.event id) →
      ∃ l4, UdpFrame buf l4 ∧ UdpHeaderAt buf l4 ∧ ToService cfg buf l4 ∧
        ∃ id, id < OSPA_STAT_ID_MAX ∧
          (xdp_openspa_adk cfg st buf).2.event id = (st.event id + 1) % U64_MOD ∧
          (st.event id < U64_MOD - 1 →
            (xdp_openspa_adk cfg st buf).2.event id = st.event id + 1) ∧
          ∀ j, j ≠ id → (xdp_openspa_adk cfg st buf).2.event j = st.event j) ∧
      ∀ j, st.event j < U64_MOD - 1 → st.event j ≤ (xdp_openspa_adk cfg st buf).2.event j := by
  constructor
  · intro h
    rcases body_untouched_or_service cfg st buf with (hb | hb) | ⟨l4, hip, hu, hs, hb⟩
    · obtain ⟨ha, he⟩ := adk_of_body cfg st st buf _ hb
      rcases h with h | ⟨id, h⟩
      · rw [ha] at h; exact absurd h (by decide)
      · exact absurd (he id) h
    · obtain ⟨ha, he⟩ := adk_of_body cfg st st buf _ hb
      rcases h with h | ⟨id, h⟩
      · rw [ha] at h; exact absurd h (by decide)
      · exact absurd (he id) h
    · refine ⟨l4, udpFrame_of_udpOverIp buf l4 hip, hu, hs, ?_⟩
      have fin : ∀ (a id : Nat), id < OSPA_STAT_ID_MAX →
          xdp_openspa_adk_body cfg st buf = (a, (xdp_openspa_stats_record_action st id).2) →
          ∃ id, id < OSPA_STAT_ID_MAX ∧
            (xdp_openspa_adk cfg st buf).2.event id = (st.event id + 1) % U64_MOD ∧
            (st.event id < U64_MOD - 1 →
              (xdp_openspa_adk cfg st buf).2.event id = st.event id + 1) ∧
            ∀ j, j ≠ id → (xdp_openspa_adk cfg st buf).2.event j = st.event j := by
        intro a id hid hbody
        obtain ⟨_, he⟩ := adk_of_body cfg st _ buf _ hbody
        have hsame : (xdp_openspa_adk cfg st buf).2.event id = (st.event id + 1) % U64_MOD := by
          rw [he]; exact record_event_same st id hid
        refine ⟨id, hid, hsame, ?_, ?_⟩
        · intro hlt
          rw [hsame]
          exact u64_add_of_lt _ _ (by omega)
        · intro j hj
          rw [he]; exact record_event_other st id j hid hj
      rcases application_stage_cases cfg st buf (l4 + 8) with hc | hc | hc
      · exact fin XDP_DROP OSPA_STAT_ID_NOT_OPENSPA_PACKET (by decide) (by rw [hb, hc])
      · exact fin XDP_DROP OSPA_STAT_ID_ADK_PROOF_INVALID (by decide) (by rw [hb, hc])
      · exact fin XDP_PASS OSPA_STAT_ID_ADK_PROOF_VALID (by decide) (by rw [hb, hc])
  · intro j hj
    obtain ⟨a, ev, hev, hb⟩ := body_classify cfg buf
    rw [adk_event, hb st]
    cases ev with
    | none => exact Nat.le_refl _
    | some e =>
      simp only [record_opt]
      rw [record_event_ite st e j (hev e rfl)]
      by_cases c : j = e
      · rw [if_pos c, u64_add_of_lt _ _ (by omega)]
        omega
      · rw [if_neg c]

/-- Witness for C19: the dropped frame `frameInvalid` is a datagram to the
configured port, and the proof-invalid counter goes from 6 to 7. -/
theorem C19_drop_only_service_traffic_witness :
    (xdp_openspa_adk cfgExample stSome frameInvalid).1 = XDP_DROP ∧
      (xdp_openspa_adk cfgExample stSome frameInvalid).2.event OSPA_STAT_ID_ADK_PROOF_INVALID =
        stSome.event OSPA_STAT_ID_ADK_PROOF_INVALID + 1 ∧
      ∃ l4, UdpFrame frameInvalid l4 ∧ UdpHeaderAt frameInvalid l4 ∧
        ToService cfgExample frameInvalid l4 ∧
        ∃ id, id < OSPA_STAT_ID_MAX ∧
          (xdp_openspa_adk cfgExample stSome frameInvalid).2.event id =
            (stSome.event id + 1) % U64_MOD ∧
          (stSome.event id < U64_MOD - 1 →
            (xdp_openspa_adk cfgExample stSome frameInvalid).2.event id = stSome.event id + 1) ∧
          ∀ j, j ≠ id →
            (xdp_openspa_adk cfgExample stSome frameInvalid).2.event j = stSome.event j :=
  ⟨by decide, by decide,
    (C19_drop_only_service_traffic cfgExample stSome frameInvalid).1 (Or.inl (by decide))⟩

theorem openspa_server_port_some (cfg : Config) (v : Nat)
    (h : cfg CONFIG_MAP_IDX_OPENSPA_SERVER_PORT = some v) :
    openspa_server_port cfg = v % 65536 := by
  unfold openspa_server_port
  rw [h]

theorem openspa_server_port_none (cfg : Config)
    (h : cfg CONFIG_MAP_IDX_OPENSPA_SERVER_PORT = none) : openspa_server_port cfg = 0 := by
  unfold openspa_server_port
  rw [h]

theorem frameToPort_udp (p : Nat) :
    UdpOverIp (frameToPort p) 34 ∧ UdpHeaderAt (frameToPort p) 34 ∧
      be16 (frameToPort p) (34 + 2) = p % 65536 ∧ (frameToPort p).length = 46 := by
  have hlen : (frameToPort p).length = 46 := by simp [frameToPort]
  have b12 : byteAt (frameToPort p) 12 = 8 := by simp [frameToPort, byteAt]; rfl
  have b13 : byteAt (frameToPort p) 13 = 0 := by simp [frameToPort, byteAt]
  have b14 : byteAt (frameToPort p) 14 = 69 := by simp [frameToPort, byteAt]; rfl
  have b23 : byteAt (frameToPort p) 23 = 17 := by simp [frameToPort, byteAt]; rfl
  have b36 : byteAt (frameToPort p) 36 = p / 256 % 256 := by simp [frameToPort, byteAt]
  have b37 : byteAt (frameToPort p) 37 = p % 256 := by simp [frameToPort, byteAt]
  have b38 : byteAt (frameToPort p) 38 = 0 := by simp [frameToPort, byteAt]
  have b39 : byteAt (frameToPort p) 39 = 12 := by simp [frameToPort, byteAt]; rfl
  have h12 : be16 (frameToPort p) (12 + 4 * 0) = ETH_P_IP := by
    show byteAt (frameToPort p) 12 * 256 + byteAt (frameToPort p) 13 = 2048
    rw [b12, b13]
  have h14 : byteAt (frameToPort p) (14 + 4 * 0) = 69 := b14
  have h23 : byteAt (frameToPort p) (14 + 4 * 0 + 9) = 17 := b23
  have h38 : be16 (frameToPort p) (34 + 4) = 12 := by
    show byteAt (frameToPort p) 38 * 256 + byteAt (frameToPort p) 39 = 12
    rw [b38, b39]
  have h36 : be16 (frameToPort p) (34 + 2) = p / 256 % 256 * 256 + p % 256 := by
    show byteAt (frameToPort p) 36 * 256 + byteAt (frameToPort p) 37 = _
    rw [b36, b37]
  refine ⟨udpOverIp_of_udpFrame _ _ ⟨0, Or.inl ⟨⟨by decide, by omega, by intro i hi; omega, h12⟩,
    ⟨by omega, by rw [h14], by rw [h14], by omega, h23⟩⟩⟩, ⟨by omega, by rw [h38]; first | done | decide⟩,
    ?_, hlen⟩
  rw [h36]
  omega

/-- Claim C20.  `openspa_server_port` returns config slot 0 reduced modulo
`2^16`, and 0 when the lookup fails.  With slot 0 holding `v`, a UDP frame whose
UDP header parses is passed untouched when `v % 65536 = 0` or when its destination
port differs from `v % 65536`, and goes on to the application stage when its
destination port is `v % 65536`.  So the scheme is inactive (every such UDP frame
is passed without an event) exactly when `v % 65536 = 0`. -/
theorem C20_port_is_slot0_mod_65536 (cfg : Config) :
    (cfg CONFIG_MAP_IDX_OPENSPA_SERVER_PORT = none → openspa_server_port cfg = 0) ∧
      ∀ v, cfg CONFIG_MAP_IDX_OPENSPA_SERVER_PORT = some v →
        openspa_server_port cfg = v % 65536 ∧
          (∀ (st : Stats) (buf : Packet) (l4 : Nat), UdpOverIp buf l4 → UdpHeaderAt buf l4 →
            xdp_openspa_adk_body cfg st buf =
              if v % 65536 = 0 then (XDP_PASS, st)
              else if be16 buf (l4 + 2) ≠ v % 65536 then (XDP_PASS, st)
              else application_stage cfg st buf (l4 + 8)) ∧
          ((∀ (st : Stats) (buf : Packet) (l4 : Nat), UdpOverIp buf l4 → UdpHeaderAt buf l4 →
              (xdp_openspa_adk cfg st buf).1 = XDP_PASS ∧
                ∀ id, (xdp_openspa_adk cfg st buf).2.event id = st.event id) ↔
            v % 65536 = 0) := by
  refine ⟨openspa_server_port_none cfg, fun v hv => ?_⟩
  have hport := openspa_server_port_some cfg v hv
  have hbody : ∀ (st : Stats) (buf : Packet) (l4 : Nat), UdpOverIp buf l4 → UdpHeaderAt buf l4 →
      xdp_openspa_adk_body cfg st buf =
        if v % 65536 = 0 then (XDP_PASS, st)
        else if be16 buf (l4 + 2) ≠ v % 65536 then (XDP_PASS, st)
        else application_stage cfg st buf (l4 + 8) := by
    intro st buf l4 hip hu
    rw [body_of_udpOverIp cfg st buf l4 hip, transport_stage_eq cfg st buf l4 hu, hport]
  refine ⟨hport, hbody, ?_, ?_⟩
  · intro hall
    by_contra hne
    obtain ⟨hip, hu, hdst, hlen⟩ := frameToPort_udp (v % 65536)
    have hd : be16 (frameToPort (v % 65536)) (34 + 2) = v % 65536 := by
      rw [hdst]; omega
    have hb := hbody stSome (frameToPort (v % 65536)) 34 hip hu
    rw [if_neg hne, if_neg (by simp [hd]),
      application_stage_reject cfg stSome _ (34 + 8) (Or.inl (by omega))] at hb
    have ha := (adk_of_body cfg stSome _ _ _ hb).1
    have hp := (hall stSome (frameToPort (v % 65536)) 34 hip hu).1
    rw [ha] at hp
    exact absurd hp (by decide)
  · intro h0 st buf l4 hip hu
    have hb := hbody st buf l4 hip hu
    rw [if_pos h0] at hb
    exact adk_of_body cfg st st buf _ hb

/-- Witness for C20: slot 0 holding 65536 switches the scheme off (the frame with
an unknown proof is passed without an event), and slot 0 holding 65536 + 12345
matches destination port 12345. -/
theorem C20_port_is_slot0_mod_65536_witness :
    openspa_server_port (cfgPort 65536) = 0 ∧
      (xdp_openspa_adk (cfgPort 65536) stSome frameInvalid).1 = XDP_PASS ∧
      (xdp_openspa_adk (cfgPort 65536) stSome frameInvalid).2.event
          OSPA_STAT_ID_ADK_PROOF_INVALID = stSome.event OSPA_STAT_ID_ADK_PROOF_INVALID ∧
      (xdp_openspa_adk (cfgPort (65536 + 12345)) stSome frameInvalid).1 = XDP_DROP ∧
      (xdp_openspa_adk (cfgPort (65536 + 12345)) stSome frameValid).2.event
          OSPA_STAT_ID_ADK_PROOF_VALID = stSome.event OSPA_STAT_ID_ADK_PROOF_VALID + 1 ∧
      openspa_server_port (cfgPort (65536 + 12345)) = (65536 + 12345) % 65536 :=
  ⟨by decide, by decide, by decide, by decide, by decide,
    ((C20_port_is_slot0_mod_65536 (cfgPort (65536 + 12345))).2 (65536 + 12345) rfl).1⟩

end OpenSPA
